import Mathlib

/-!
# Verification of the job-agent matching and deduplication pipeline

A shallow embedding, in Lean 4, of the core of the `job_agent` repository:
the listing identity hash (`job_agent/jobs/models.py`), the keyword and AI
scoring strategies (`job_agent/matching/`), the text-processing utilities
(`job_agent/utils/text_processing.py`), the source aggregator
(`job_agent/main.py`), the SQLite dedup store (`job_agent/storage/database.py`)
and the per-user web pipeline (`job_agent/pipeline.py`).

Python strings are embedded as `String`, Python floats as `ℚ`, machine
integers as `Nat` with explicit `% 2 ^ 32` where the SHA-256 arithmetic
overflows, timestamps as `Nat`, and fallible external calls (job sources,
the OpenAI scorer, the email transport) as `Except`-valued oracles passed
in as arguments.  Database rows are explicit Lean structures and the
pipeline is explicit state passing over a `Db` value.
-/

set_option maxRecDepth 4000

/- Batteries marks the `Rat` arithmetic `@[irreducible]`, which blocks
elaborator-side evaluation of concrete score arithmetic (the kernel
reduces it regardless); restore the default reducibility so that concrete
runs of the embedded code can be checked by `decide`. -/
set_option allowUnsafeReducibility true in
attribute [semireducible] Rat.add

set_option allowUnsafeReducibility true in
attribute [semireducible] Rat.mul Rat.sub Rat.inv Rat.ofScientific

namespace JobAgent

/-! ## Python string primitives -/

/-- Bytes of the UTF-8 encoding of one character (what Python's
`str.encode()` produces per code point). -/
def utf8Bytes (c : Char) : List Nat :=
  let n := c.toNat
  if n < 128 then [n]
  else if n < 2048 then [192 + n / 64, 128 + n % 64]
  else if n < 65536 then [224 + n / 4096, 128 + n / 64 % 64, 128 + n % 64]
  else [240 + n / 262144, 128 + n / 4096 % 64, 128 + n / 64 % 64, 128 + n % 64]

/-- UTF-8 bytes of a string, mirroring Python `s.encode()`. -/
def strBytes (s : String) : List Nat := (s.data.map utf8Bytes).flatten

/-- Python `str.lower()` (character-wise lowering). -/
def pyLower (s : String) : String := ⟨s.data.map Char.toLower⟩

/-- Python `str.strip()` (whitespace trimmed from both ends). -/
def pyStrip (s : String) : String :=
  ⟨((s.data.dropWhile Char.isWhitespace).reverse.dropWhile Char.isWhitespace).reverse⟩

/-! ## SHA-256 (the `hashlib.sha256` call in `JobListing.job_id`),
implemented from FIPS 180-4 over `Nat` with explicit mod-2³² arithmetic. -/

/-- 2³². -/
def w32 : Nat := 4294967296

/-- 2³² - 1. -/
def mask32 : Nat := 4294967295

/-- Right rotation of a 32-bit word. -/
def rotr (n x : Nat) : Nat := (x >>> n) ||| ((x <<< (32 - n)) &&& mask32)

def bsig0 (x : Nat) : Nat := rotr 2 x ^^^ rotr 13 x ^^^ rotr 22 x

def bsig1 (x : Nat) : Nat := rotr 6 x ^^^ rotr 11 x ^^^ rotr 25 x

def ssig0 (x : Nat) : Nat := rotr 7 x ^^^ rotr 18 x ^^^ (x >>> 3)

def ssig1 (x : Nat) : Nat := rotr 17 x ^^^ rotr 19 x ^^^ (x >>> 10)

/-- The 64 SHA-256 round constants (FIPS 180-4 §4.2.2, in decimal). -/
def shaK : List Nat :=
  [1116352408, 1899447441, 3049323471, 3921009573,
   961987163, 1508970993, 2453635748, 2870763221,
   3624381080, 310598401, 607225278, 1426881987,
   1925078388, 2162078206, 2614888103, 3248222580,
   3835390401, 4022224774, 264347078, 604807628,
   770255983, 1249150122, 1555081692, 1996064986,
   2554220882, 2821834349, 2952996808, 3210313671,
   3336571891, 3584528711, 113926993, 338241895,
   666307205, 773529912, 1294757372, 1396182291,
   1695183700, 1986661051, 2177026350, 2456956037,
   2730485921, 2820302411, 3259730800, 3345764771,
   3516065817, 3600352804, 4094571909, 275423344,
   430227734, 506948616, 659060556, 883997877,
   958139571, 1322822218, 1537002063, 1747873779,
   1955562222, 2024104815, 2227730452, 2361852424,
   2428436474, 2756734187, 3204031479, 3329325298]

/-- The eight 32-bit words of the SHA-256 working state. -/
structure ShaState where
  a : Nat
  b : Nat
  c : Nat
  d : Nat
  e : Nat
  f : Nat
  g : Nat
  h : Nat
deriving DecidableEq

/-- SHA-256 initial hash value (FIPS 180-4 §5.3.3, in decimal). -/
def shaInit : ShaState :=
  ⟨1779033703, 3144134277, 1013904242, 2773480762,
   1359893119, 2600822924, 528734635, 1541459225⟩

/-- One SHA-256 compression round, fed the pair (round constant, schedule word). -/
def shaRound (st : ShaState) (kw : Nat × Nat) : ShaState :=
  let ch := (st.e &&& st.f) ^^^ ((st.e ^^^ mask32) &&& st.g)
  let maj := (st.a &&& st.b) ^^^ (st.a &&& st.c) ^^^ (st.b &&& st.c)
  let t1 := (st.h + bsig1 st.e + ch + kw.1 + kw.2) % w32
  let t2 := (bsig0 st.a + maj) % w32
  ⟨(t1 + t2) % w32, st.a, st.b, st.c, (st.d + t1) % w32, st.e, st.f, st.g⟩

/-- Extend the 16 block words to the full 64-word message schedule
(`n` is the number of words still to append). -/
def extendSchedule : Nat → List Nat → List Nat
  | 0, ws => ws
  | n + 1, ws =>
      let i := ws.length
      let nw := (ssig1 (ws.getD (i - 2) 0) + ws.getD (i - 7) 0
                  + ssig0 (ws.getD (i - 15) 0) + ws.getD (i - 16) 0) % w32
      extendSchedule n (ws ++ [nw])

/-- Split a list into `k+1`-byte groups (`fuel` bounds the recursion depth so
the definition is structural and kernel-reducible). -/
def chunkF (k : Nat) : Nat → List Nat → List (List Nat)
  | _, [] => []
  | 0, l => [l]
  | fuel + 1, a :: l => (a :: l.take k) :: chunkF k fuel (l.drop k)

/-- Split a byte list into 4-byte groups. -/
def chunk4 (l : List Nat) : List (List Nat) := chunkF 3 l.length l

/-- Split a byte list into 64-byte blocks. -/
def chunk64 (l : List Nat) : List (List Nat) := chunkF 63 l.length l

/-- Big-endian 32-bit word from four bytes. -/
def wordOfBytes (bs : List Nat) : Nat := bs.foldl (fun acc b => acc * 256 + b) 0

/-- The sixteen 32-bit words of one 64-byte block. -/
def blockWords (block : List Nat) : List Nat := (chunk4 block).map wordOfBytes

/-- SHA-256 message padding: `0x80`, zeros to 56 mod 64, then the 64-bit
big-endian bit length. -/
def shaPad (msg : List Nat) : List Nat :=
  let bitLen := 8 * msg.length
  let zeros := (119 - msg.length % 64) % 64
  msg ++ [128] ++ List.replicate zeros 0 ++
    [(bitLen >>> 56) &&& 255, (bitLen >>> 48) &&& 255, (bitLen >>> 40) &&& 255,
     (bitLen >>> 32) &&& 255, (bitLen >>> 24) &&& 255, (bitLen >>> 16) &&& 255,
     (bitLen >>> 8) &&& 255, bitLen &&& 255]

/-- Compress one 64-byte block into the state. -/
def compressBlock (st : ShaState) (block : List Nat) : ShaState :=
  let ws := extendSchedule 48 (blockWords block)
  let t := (shaK.zip ws).foldl shaRound st
  ⟨(st.a + t.a) % w32, (st.b + t.b) % w32, (st.c + t.c) % w32, (st.d + t.d) % w32,
   (st.e + t.e) % w32, (st.f + t.f) % w32, (st.g + t.g) % w32, (st.h + t.h) % w32⟩

/-- SHA-256 of a byte list, as the final working state. -/
def sha256State (msg : List Nat) : ShaState :=
  (chunk64 (shaPad msg)).foldl compressBlock shaInit

/-- The lowercase hex digit for a nibble: `0`-`9` then `a`-`f` by code
point (values ≥ 16 clamp into the same alphabet). -/
def hexDigitChar (n : Nat) : Char :=
  if n < 10 then Char.ofNat (48 + n)
  else if n < 16 then Char.ofNat (87 + n)
  else '0'

/-- The sixteen lowercase hex digits. -/
def hexDigits : List Char := (List.range 16).map hexDigitChar

/-- Fixed-width lowercase hex rendering of a number (`w` digits). -/
def toHexFixed : Nat → Nat → List Char
  | 0, _ => []
  | w + 1, n => toHexFixed w (n / 16) ++ [hexDigitChar (n % 16)]

/-- `hashlib.sha256(...).hexdigest()`: the 64-character lowercase hex digest. -/
def sha256Hex (msg : List Nat) : String :=
  let st := sha256State msg
  ⟨toHexFixed 8 st.a ++ toHexFixed 8 st.b ++ toHexFixed 8 st.c ++ toHexFixed 8 st.d ++
   toHexFixed 8 st.e ++ toHexFixed 8 st.f ++ toHexFixed 8 st.g ++ toHexFixed 8 st.h⟩

/-- FIPS 180-4 test vector: digest of the empty message. -/
theorem sha256Hex_nil :
    sha256Hex [] = "e3b0c44298fc1c149afbf4c8996fb92427ae41e4649b934ca495991b7852b855" := by
  decide

/-- FIPS 180-4 test vector: digest of "abc". -/
theorem sha256Hex_abc :
    sha256Hex (strBytes "abc") =
      "ba7816bf8f01cfea414140de5dae2223b00361a396177a9cb410ff61f20015ad" := by
  decide

/-! ## `JobListing` (`job_agent/jobs/models.py`) -/

/-- One job posting from one source (`JobListing` dataclass).  Scores are
embedded as rationals, the fetch timestamp as a `Nat`. -/
structure JobListing where
  title : String
  company : String
  url : String
  location : String := ""
  description : String := ""
  salary : String := ""
  source : String := ""
  postedDate : String := ""
  jobType : String := ""
  remote : Bool := false
  matchScore : ℚ := 0
  matchReason : String := ""
  fetchedAt : Nat := 0
deriving DecidableEq

/-- The pipe-joined normalized triple hashed by `JobListing.job_id`. -/
def normTriple (j : JobListing) : String :=
  pyLower (pyStrip j.title) ++ "|" ++ pyLower (pyStrip j.company) ++ "|" ++ pyLower (pyStrip j.url)

/-- `JobListing.job_id`: SHA-256 hex digest of the normalized
`title|company|url` triple. -/
def JobListing.jobId (j : JobListing) : String := sha256Hex (strBytes (normTriple j))

/-! ### Digest format lemmas -/

theorem length_toHexFixed (w n : Nat) : (toHexFixed w n).length = w := by
  induction w generalizing n with
  | zero => rfl
  | succ w ih => simp [toHexFixed, ih]

theorem hexDigitChar_mem_of_lt : ∀ m < 16, hexDigitChar m ∈ hexDigits := by decide

theorem mem_toHexFixed {w n : Nat} {c : Char} (h : c ∈ toHexFixed w n) : c ∈ hexDigits := by
  induction w generalizing n with
  | zero => simp [toHexFixed] at h
  | succ w ih =>
      simp only [toHexFixed, List.mem_append, List.mem_singleton] at h
      rcases h with h | h
      · exact ih h
      · subst h
        exact hexDigitChar_mem_of_lt _ (Nat.mod_lt _ (by omega))

theorem sha256Hex_length (msg : List Nat) : (sha256Hex msg).length = 64 := by
  simp [sha256Hex, String.length, length_toHexFixed]

theorem sha256Hex_hex (msg : List Nat) : ∀ c ∈ (sha256Hex msg).data, c ∈ hexDigits := by
  intro c hc
  simp only [sha256Hex, List.mem_append] at hc
  rcases hc with ((((((h | h) | h) | h) | h) | h) | h) | h <;> exact mem_toHexFixed h

/-! ## Text processing (`job_agent/utils/text_processing.py`) -/

/-- The `TECH_SKILLS` set, as listed in the source. -/
def TECH_SKILLS : List String :=
  ["python", "java", "javascript", "typescript", "c++", "c#", "go", "golang",
   "rust", "ruby", "php", "swift", "kotlin", "scala", "r", "matlab", "perl",
   "sql", "html", "css", "bash", "shell", "powershell",
   "react", "angular", "vue", "next.js", "nextjs", "node.js", "nodejs",
   "django", "flask", "fastapi", "spring", "express", ".net", "dotnet",
   "rails", "laravel", "svelte", "remix", "gatsby",
   "aws", "azure", "gcp", "google cloud", "docker", "kubernetes", "k8s",
   "terraform", "ansible", "jenkins", "github actions", "ci/cd", "cicd",
   "linux", "nginx", "apache",
   "machine learning", "deep learning", "nlp", "computer vision",
   "tensorflow", "pytorch", "scikit-learn", "pandas", "numpy", "spark",
   "hadoop", "airflow", "kafka", "elasticsearch",
   "postgresql", "postgres", "mysql", "mongodb", "redis", "cassandra",
   "dynamodb", "sqlite", "oracle", "sql server",
   "git", "agile", "scrum", "rest", "graphql", "grpc", "microservices",
   "api", "devops", "sre", "tdd", "unit testing"]

/-- A regex word character (`\w`): letter, digit or underscore. -/
def isWordChar (c : Char) : Bool := c.isAlphanum || c = '_'

/-- Whether the character at index `q` is a word character (out of range
counts as non-word). -/
def wordAt (t : List Char) (q : Nat) : Bool :=
  match t.get? q with
  | some c => isWordChar c
  | none => false

/-- Regex word boundary `\b` at inter-character position `p`. -/
def boundaryAt (t : List Char) (p : Nat) : Bool :=
  (if p = 0 then false else wordAt t (p - 1)) != wordAt t p

/-- `re.search(rf"\b{re.escape(skill)}\b", text)`: the literal occurs with a
word boundary on both sides. -/
def wbSearch (sk t : List Char) : Bool :=
  (List.range (t.length + 1)).any fun i =>
    boundaryAt t i && boundaryAt t (i + sk.length) && ((t.drop i).take sk.length == sk)

/-- Python `needle in hay` substring test. -/
def containsSub (needle hay : List Char) : Bool :=
  (List.range (hay.length + 1)).any fun i => (hay.drop i).take needle.length == needle

def pyIn (needle hay : String) : Bool := containsSub needle.data hay.data

/-- Python `set` values are embedded as duplicate-free `List String`
values; `a & b` keeps the distinct members of `a` that are also in `b`. -/
def sInter (a b : List String) : List String := a.dedup.filter fun x => x ∈ b

/-- Python set union `a | b`. -/
def sUnion (a b : List String) : List String := (a ++ b).dedup

/-- Python `len` of a set given by a list model (distinct members). -/
def sCard (a : List String) : Nat := a.dedup.length

/-- `extract_skills`: recognized tech skills present in the text, with
word-boundary matching for skills of length ≤ 2 and plain substring
matching otherwise (a subset of `TECH_SKILLS`, hence duplicate-free). -/
def extractSkills (text : String) : List String :=
  let tl := pyLower text
  TECH_SKILLS.filter fun sk =>
    if sk.length ≤ 2 then wbSearch sk.data tl.data else pyIn sk tl

/-- The stop-word set of `extract_keywords`. -/
def STOP_WORDS : List String :=
  ["the", "a", "an", "and", "or", "but", "in", "on", "at", "to", "for",
   "of", "with", "by", "from", "is", "are", "was", "were", "be", "been",
   "being", "have", "has", "had", "do", "does", "did", "will", "would",
   "could", "should", "may", "might", "can", "shall", "this", "that",
   "these", "those", "i", "you", "he", "she", "it", "we", "they", "me",
   "him", "her", "us", "them", "my", "your", "his", "its", "our", "their",
   "not", "no", "nor", "so", "if", "then", "than", "too", "very", "just",
   "about", "up", "out", "all", "also", "as", "into", "over", "after",
   "before", "between", "through", "during", "above", "below", "each",
   "few", "more", "most", "other", "some", "such", "only", "own", "same",
   "when", "where", "how", "what", "which", "who", "whom", "why",
   "work", "experience", "team", "company", "role", "ability"]

/-- Length of the maximal run of `pred`-characters starting at `p`
(`fuel` bounds recursion). -/
def runLen (pred : Char → Bool) (t : List Char) : Nat → Nat → Nat
  | 0, _ => 0
  | fuel + 1, p =>
      match t.get? p with
      | some c => if pred c then 1 + runLen pred t fuel (p + 1) else 0
      | none => 0

/-- `[a-z]`. -/
def lowerAZ (c : Char) : Bool := 'a' ≤ c && c ≤ 'z'

/-- The repeated character class `[a-z+#.]` of the keyword token regex. -/
def kwClass (c : Char) : Bool := lowerAZ c || c = '+' || c = '#' || c = '.'

/-- Largest `k ≤ bound`, `k ≥ 1`, with a word boundary at `pstart + k`
(the greedy backtracking of `{1,30}` against the trailing `\b`). -/
def findK (t : List Char) (pstart : Nat) : Nat → Option Nat
  | 0 => none
  | k + 1 => if boundaryAt t (pstart + (k + 1)) then some (k + 1) else findK t pstart k

/-- Left-to-right scan of `re.findall(r"\b[a-z][a-z+#.]{1,30}\b", text)`:
at each position try to match a token, emit it and continue after its end,
otherwise advance one character. -/
def scanKw (t : List Char) : Nat → Nat → List (List Char)
  | 0, _ => []
  | fuel + 1, p =>
      match t.get? p with
      | none => []
      | some c0 =>
          if lowerAZ c0 && boundaryAt t p then
            let run := min (runLen kwClass t (t.length + 1) (p + 1)) 30
            match findK t (p + 1) run with
            | some k => (t.drop p).take (1 + k) :: scanKw t fuel (p + 1 + k)
            | none => scanKw t fuel (p + 1)
          else scanKw t fuel (p + 1)

/-- `extract_keywords`: frequency-ranked non-stop-word tokens of the lowered
text (`Counter.most_common`: count descending, ties by first occurrence). -/
def extractKeywords (text : String) (topN : Nat) : List String :=
  let words := (scanKw (pyLower text).data ((pyLower text).data.length + 1) 0).map
    fun l => (⟨l⟩ : String)
  let filtered := words.filter fun w => w ∉ STOP_WORDS
  let uniq := filtered.foldl (fun acc w => if w ∈ acc then acc else acc ++ [w]) []
  let items := uniq.map fun w => (w, filtered.count w)
  let sorted := items.insertionSort fun x y => y.2 ≤ x.2
  (sorted.take topN).map Prod.fst

/-- Python `str.removeprefix`. -/
def dropPre (p t : String) : String :=
  if t.data.take p.data.length = p.data then ⟨t.data.drop p.data.length⟩ else t

/-- Python `title[: -len(suffix)]` guarded by `endswith`. -/
def dropSuf (suf t : String) : String :=
  if t.data.reverse.take suf.data.length = suf.data.reverse then
    ⟨t.data.take (t.data.length - suf.data.length)⟩
  else t

/-- `normalize_title`: lower, strip, remove seniority prefixes and roman
level suffixes, strip again. -/
def normalizeTitle (title : String) : String :=
  let t := pyStrip (pyLower title)
  let t := ["senior ", "sr. ", "sr ", "junior ", "jr. ", "jr ", "lead ", "staff ",
            "principal "].foldl (fun t p => dropPre p t) t
  let t := [" i", " ii", " iii", " iv", " v"].foldl (fun t s => dropSuf s t) t
  pyStrip t

/-- Python `str.split()` with no arguments: split on whitespace runs,
producing no empty words (`cur` accumulates the current word reversed). -/
def splitWsChars : List Char → List Char → List String
  | [], cur => if cur = [] then [] else [⟨cur.reverse⟩]
  | c :: rest, cur =>
      if c.isWhitespace then
        if cur = [] then splitWsChars rest []
        else (⟨cur.reverse⟩ : String) :: splitWsChars rest []
      else splitWsChars rest (c :: cur)

/-- Python `str.split()` with no arguments. -/
def splitWs (s : String) : List String := splitWsChars s.data []

/-- `title_similarity`: word-set overlap of normalized titles. -/
def titleSimilarity (t1 t2 : String) : ℚ :=
  let n1 := normalizeTitle t1
  let n2 := normalizeTitle t2
  if n1 = n2 then 1
  else
    let words1 := (splitWs n1).dedup
    let words2 := (splitWs n2).dedup
    if words1 = [] ∨ words2 = [] then 0
    else ((sInter words1 words2).length : ℚ) / (max words1.length words2.length : ℚ)

/-- Literal match of `lit` at position `p`, returning the end position. -/
def matchLit (lit : String) (t : List Char) (p : Nat) : Option Nat :=
  if (t.drop p).take lit.data.length == lit.data then some (p + lit.data.length) else none

/-- Digits parsed as a number (`int(match.group(1))`). -/
def parseNat (ds : List Char) : Nat := ds.foldl (fun a c => a * 10 + (c.toNat - 48)) 0

/-- `(?:years?|yrs?)` at `q`, continuing with `tail` at the end position. -/
def yearsThen (t : List Char) (q : Nat) (tail : Nat → Bool) : Bool :=
  ["years", "year", "yrs", "yr"].any fun y =>
    match matchLit y t q with
    | some r => tail r
    | none => false

/-- Skip `\s*` (greedy; complete here because every following pattern
element starts with a non-whitespace character). -/
def skipWs (t : List Char) (p : Nat) : Nat := p + runLen Char.isWhitespace t (t.length + 1) p

/-- `(?:of\s*)?` at `r`, then `tail` (both branches, `of` first). -/
def optionalOf (t : List Char) (r : Nat) (tail : Nat → Bool) : Bool :=
  (match matchLit "of" t r with
   | some r2 => tail (skipWs t r2)
   | none => false) || tail r

/-- Pattern `(\d+)\+?\s*(?:years?|yrs?)\s*(?:of\s*)?(?:experience|exp)` at `p`. -/
def tryP1At (t : List Char) (p : Nat) : Option Nat :=
  let d := runLen Char.isDigit t (t.length + 1) p
  if d = 0 then none else
  let digits := (t.drop p).take d
  let q := p + d
  let q := if t.get? q = some '+' then q + 1 else q
  let q := skipWs t q
  let expTail := fun r =>
    optionalOf t (skipWs t r) fun r2 =>
      (matchLit "experience" t r2).isSome || (matchLit "exp" t r2).isSome
  if yearsThen t q expTail then some (parseNat digits) else none

/-- Pattern `(?:experience|exp)\s*(?:of\s*)?(\d+)\+?\s*(?:years?|yrs?)` at `p`. -/
def tryP2At (t : List Char) (p : Nat) : Option Nat :=
  let core := fun r2 =>
    let d := runLen Char.isDigit t (t.length + 1) r2
    if d = 0 then none else
    let digits := (t.drop r2).take d
    let q := r2 + d
    let q := if t.get? q = some '+' then q + 1 else q
    let q := skipWs t q
    if yearsThen t q (fun _ => true) then some (parseNat digits) else none
  let afterLead := fun r =>
    let r := skipWs t r
    (match matchLit "of" t r with
     | some r2 => core (skipWs t r2)
     | none => none) <|> core r
  (match matchLit "experience" t p with
   | some r => afterLead r
   | none => none) <|>
  (match matchLit "exp" t p with
   | some r => afterLead r
   | none => none)

/-- Pattern `(\d+)\+?\s*(?:years?|yrs?)` at `p`. -/
def tryP3At (t : List Char) (p : Nat) : Option Nat :=
  let d := runLen Char.isDigit t (t.length + 1) p
  if d = 0 then none else
  let digits := (t.drop p).take d
  let q := p + d
  let q := if t.get? q = some '+' then q + 1 else q
  let q := skipWs t q
  if yearsThen t q (fun _ => true) then some (parseNat digits) else none

/-- `re.search`: leftmost match of the pattern over the text. -/
def searchPat (tryAt : List Char → Nat → Option Nat) (t : List Char) : Option Nat :=
  (List.range (t.length + 1)).findSome? fun p => tryAt t p

/-- `extract_years_experience`: the three patterns tried in order over the
lowered text. -/
def extractYears (text : String) : Option Nat :=
  let t := (pyLower text).data
  searchPat tryP1At t <|> searchPat tryP2At t <|> searchPat tryP3At t

/-! ## Profile and configuration (`job_agent/profile/models.py`, `job_agent/config.py`) -/

/-- `ProfileData`: the candidate's parsed profile.  The Python `set[str]`
of skills is a duplicate-free `List String`. -/
structure ProfileData where
  name : String := ""
  email : String := ""
  phone : String := ""
  location : String := ""
  summary : String := ""
  skills : List String := []
  jobTitles : List String := []
  experienceYears : Nat := 0
  education : List String := []
  keywords : List String := []
  rawText : String := ""
deriving DecidableEq

structure EmailConfig where
  smtpServer : String := "smtp.gmail.com"
  smtpPort : Nat := 587
  senderEmail : String := ""
  senderPassword : String := ""
  recipientEmail : String := ""
deriving DecidableEq

structure SearchConfig where
  jobTitles : List String := ["Software Engineer"]
  location : String := ""
  remoteOk : Bool := true
  experienceYears : Nat := 0
  maxResultsPerSource : Nat := 50
deriving DecidableEq

structure MatchingConfig where
  scoreThreshold : ℚ := 0.3
  useAiMatching : Bool := false
  aiPreFilterThreshold : ℚ := 0.2
deriving DecidableEq

structure ApiKeys where
  serpapiKey : String := ""
  openaiApiKey : String := ""
deriving DecidableEq

structure AppConfig where
  email : EmailConfig := {}
  search : SearchConfig := {}
  matching : MatchingConfig := {}
  apiKeys : ApiKeys := {}
deriving DecidableEq

/-! ## Keyword scoring (`job_agent/matching/keyword_matcher.py`) -/

def WEIGHT_SKILLS : ℚ := 0.40

def WEIGHT_TITLE : ℚ := 0.30

def WEIGHT_KEYWORDS : ℚ := 0.20

def WEIGHT_EXPERIENCE : ℚ := 0.10

/-- Python `round(q, 3)` on the rational embedding of the score (float
tie-breaking at exact half-thousandths is below the granularity of this
model). -/
def round3 (q : ℚ) : ℚ := ((round (q * 1000) : ℤ) : ℚ) / 1000

/-- `f"{job.title} {job.description}".lower()`. -/
def jobText (j : JobListing) : String := pyLower (j.title ++ " " ++ j.description)

/-- `extract_skills(job_text) | {s for s in profile.skills if s in job_text}`:
the extracted tech skills unioned with the profile skills that occur as a
plain substring of the job text. -/
def jobSkills (profile : ProfileData) (j : JobListing) : List String :=
  sUnion (extractSkills (jobText j)) (profile.skills.filter fun s => pyIn s (jobText j))

/-- The skills counted as overlapping in the skills sub-score. -/
def skillsOverlapSet (profile : ProfileData) (j : JobListing) : List String :=
  sInter profile.skills (jobSkills profile j)

/-- `score_job`: the weighted keyword score and its human-readable reason. -/
def scoreJob (profile : ProfileData) (j : JobListing) : ℚ × String :=
  let js := jobSkills profile j
  let skillsPart :=
    if profile.skills ≠ [] ∧ js ≠ [] then
      let overlap := sInter profile.skills js
      (min ((overlap.length : ℚ) / (max (sCard profile.skills) 1 : ℚ)) 1,
       if overlap ≠ [] then
         ["Skills: " ++ String.intercalate ", "
            ((overlap.insertionSort (· ≤ ·)).take 5)]
       else [])
    else ((0 : ℚ), ([] : List String))
  let titleAcc := profile.jobTitles.foldl
    (fun acc pt =>
      let sim := titleSimilarity pt j.title
      if acc.1 < sim then (sim, pt) else acc)
    ((0 : ℚ), "")
  let titleReasons := if (0.3 : ℚ) < titleAcc.1 then ["Title match: " ++ titleAcc.2] else []
  let jobKeywords := extractKeywords (jobText j) 20
  let profileKeywords := (profile.keywords.take 30).dedup
  let keywordsScore : ℚ :=
    if profileKeywords ≠ [] ∧ jobKeywords ≠ [] then
      min (((sInter profileKeywords jobKeywords).length : ℚ) /
        (max profileKeywords.length 1 : ℚ)) 1
    else 0
  let expPart :=
    if 0 < profile.experienceYears then
      match extractYears (jobText j) with
      | some jy =>
          let diff := max profile.experienceYears jy - min profile.experienceYears jy
          if diff ≤ 2 then
            ((1 : ℚ),
             ["Experience: " ++ toString jy ++ "yr required, you have "
                ++ toString profile.experienceYears ++ "yr"])
          else if diff ≤ 5 then ((0.5 : ℚ), ([] : List String))
          else ((0.2 : ℚ), ([] : List String))
      | none => ((0.5 : ℚ), ([] : List String))
    else ((0 : ℚ), ([] : List String))
  let total := WEIGHT_SKILLS * skillsPart.1 + WEIGHT_TITLE * titleAcc.1
    + WEIGHT_KEYWORDS * keywordsScore + WEIGHT_EXPERIENCE * expPart.1
  let reasons := skillsPart.2 ++ titleReasons ++ expPart.2
  let reason := if reasons = [] then "Low keyword overlap" else String.intercalate "; " reasons
  (round3 total, reason)

/-! ## AI scoring (`job_agent/matching/ai_matcher.py`) -/

/-- The outcome of the external OpenAI call inside `score_job_with_ai`:
either one of its failure modes (import failure, API error, unparseable
JSON, a score field `float()` rejects) or a parsed score/reason pair. -/
inductive AiResponse where
  | importError : AiResponse
  | apiError : String → AiResponse
  | invalidJson : String → AiResponse
  | badScoreField : String → AiResponse
  | parsed : ℚ → String → AiResponse
deriving DecidableEq

/-- `score_job_with_ai`: every failure mode raises (is re-raised), a parsed
response is clamped to [0,1], rounded and prefixed. -/
def scoreJobWithAi (resp : AiResponse) : Except String (ℚ × String) :=
  match resp with
  | .importError => .error "ImportError: openai package required for AI matching"
  | .apiError m => .error m
  | .invalidJson m => .error ("JSONDecodeError: " ++ m)
  | .badScoreField m => .error ("ValueError: " ++ m)
  | .parsed s r => .ok (round3 (max 0 (min 1 s)), "[AI] " ++ r)

/-- The external world's response to the AI call for a given pair. -/
def AiOracle : Type := ProfileData → JobListing → AiResponse

/-! ## Matcher facade (`job_agent/matching/matcher.py`) -/

/-- The body of the scoring loop of `score_and_filter_jobs`: compute the
keyword score, optionally try the gated AI call, and set
`match_score`/`match_reason` on the listing. -/
def assignScore (profile : ProfileData) (config : AppConfig) (ai : AiOracle)
    (j : JobListing) : JobListing :=
  let useAi := config.matching.useAiMatching && config.apiKeys.openaiApiKey ≠ ""
  let kw := scoreJob profile j
  if useAi ∧ config.matching.aiPreFilterThreshold ≤ kw.1 then
    match scoreJobWithAi (ai profile j) with
    | .ok sr => { j with matchScore := sr.1, matchReason := sr.2 }
    | .error _ => { j with matchScore := kw.1, matchReason := kw.2 }
  else { j with matchScore := kw.1, matchReason := kw.2 }

/-- `score_and_filter_jobs`: score every listing, keep those at or above the
threshold (in input order), then stable-sort by score descending
(Python `list.sort` is stable; `insertionSort` with `≥` on scores is the
same stable descending sort). -/
def scoreAndFilterJobs (profile : ProfileData) (jobs : List JobListing)
    (config : AppConfig) (ai : AiOracle) : List JobListing :=
  let threshold := config.matching.scoreThreshold
  let scored := jobs.map (assignScore profile config ai)
  let matched := scored.filter fun j => threshold ≤ j.matchScore
  matched.insertionSort fun x y => y.matchScore ≤ x.matchScore

/-! ## Source aggregator (`job_agent/main.py`, `fetch_all_jobs`) -/

/-- A listing source: `Fetch(query, location, maxResults)`, which either
returns listings or fails (raises). -/
def Source : Type := String → String → Nat → Except String (List JobListing)

/-- `fetch_all_jobs`: for every configured search title, try the SerpAPI,
Indeed and LinkedIn sources in turn, extending the accumulator with each
successful result and skipping (logging) each failure.  The SerpAPI call
also receives the configured API key. -/
def fetchAllJobs (config : AppConfig)
    (serp : String → Source) (indeed linkedin : Source) : List JobListing :=
  config.search.jobTitles.foldl
    (fun allJobs title =>
      let loc := config.search.location
      let maxR := config.search.maxResultsPerSource
      let allJobs :=
        match serp config.apiKeys.serpapiKey title loc maxR with
        | .ok jobs => allJobs ++ jobs
        | .error _ => allJobs
      let allJobs :=
        match indeed title loc maxR with
        | .ok jobs => allJobs ++ jobs
        | .error _ => allJobs
      let allJobs :=
        match linkedin title loc maxR with
        | .ok jobs => allJobs ++ jobs
        | .error _ => allJobs
      allJobs)
    []

/-! ## Database rows (`job_agent/models/seen_job.py`, `run_history.py`) -/

/-- A `seen_jobs_v2` row (`SeenJob` model): per-user dedup record with a
denormalized listing snapshot. -/
structure SeenRow where
  userId : Nat
  jobId : String
  title : String
  company : String
  url : String
  location : String
  description : String
  salary : String
  source : String
  postedDate : String
  jobType : String
  remote : Bool
  matchScore : ℚ
  matchReason : String
  firstSeenAt : Nat
  lastSeenAt : Nat
  sentAt : Option Nat
deriving DecidableEq

/-- A `run_history_v2` row (`RunHistory` model). -/
structure RunRow where
  userId : Nat
  jobsFetched : Nat
  newJobsFound : Nat
  jobsMatched : Nat
  emailSent : Bool
  errorMessage : Option String
deriving DecidableEq

/-- The mutable database state touched by the web pipeline. -/
structure Db where
  seen : List SeenRow
  runs : List RunRow
deriving DecidableEq

/-- A `user_settings` row (`UserSettings` model), restricted to the fields
the pipeline reads. -/
structure UserSettingsRow where
  jobTitles : List String := ["Software Engineer"]
  location : String := ""
  remoteOk : Bool := true
  experienceYears : Nat := 0
  maxResultsPerSource : Nat := 50
  scoreThreshold : ℚ := 0.3
  useAiMatching : Bool := false
  aiPreFilterThreshold : ℚ := 0.2
  serpapiKey : String := ""
  openaiApiKey : String := ""
  smtpServer : String := "smtp.gmail.com"
  smtpPort : Nat := 587
  senderEmail : String := ""
  senderPassword : String := ""
  recipientEmail : String := ""
  resendApiKey : String := ""
deriving DecidableEq

/-! ## Web pipeline (`job_agent/pipeline.py`) -/

/-- Python `x or default` on a string (falsy = empty). -/
def orS (x dflt : String) : String := if x = "" then dflt else x

/-- Python `x or default` on an integer (falsy = zero). -/
def orN (x dflt : Nat) : Nat := if x = 0 then dflt else x

/-- Python `x or default` on a float (falsy = zero). -/
def orQ (x dflt : ℚ) : ℚ := if x = 0 then dflt else x

/-- Python `x or default` on a list (falsy = empty). -/
def orL (x dflt : List String) : List String := if x = [] then dflt else x

/-- `build_app_config_for_user`: an `AppConfig` from the settings row. -/
def buildAppConfigForUser (settings : UserSettingsRow) : AppConfig :=
  { email := { smtpServer := orS settings.smtpServer "smtp.gmail.com",
               smtpPort := orN settings.smtpPort 587,
               senderEmail := orS settings.senderEmail "",
               senderPassword := orS settings.senderPassword "",
               recipientEmail := orS settings.recipientEmail "" },
    search := { jobTitles := orL settings.jobTitles ["Software Engineer"],
                location := orS settings.location "",
                remoteOk := settings.remoteOk,
                experienceYears := orN settings.experienceYears 0,
                maxResultsPerSource := orN settings.maxResultsPerSource 50 },
    matching := { scoreThreshold := orQ settings.scoreThreshold 0.3,
                  useAiMatching := settings.useAiMatching,
                  aiPreFilterThreshold := orQ settings.aiPreFilterThreshold 0.2 },
    apiKeys := { serpapiKey := orS settings.serpapiKey "",
                 openaiApiKey := orS settings.openaiApiKey "" } }

/-- The search-title augmentation loop over `profile_data.job_titles`. -/
def augmentProfile (p : ProfileData) (config : AppConfig) : ProfileData :=
  { p with jobTitles :=
      config.search.jobTitles.foldl (fun ts t => if t ∈ ts then ts else ts ++ [t]) p.jobTitles }

/-- The `seen_ids` query: job ids of this user's `seen_jobs_v2` rows. -/
def seenIdsFor (seen : List SeenRow) (userId : Nat) : List String :=
  (seen.filter fun r => r.userId = userId).map (·.jobId)

/-- The normalized `(title, company)` key of the secondary dedup pass. -/
def pairKey (j : JobListing) : String × String :=
  (pyLower (pyStrip j.title), pyLower (pyStrip j.company))

/-- The secondary dedup loop: keep the first listing for each normalized
`(title, company)` pair, in order. -/
def secondaryDedup (jobs : List JobListing) : List JobListing :=
  (jobs.foldl
    (fun (acc : List (String × String) × List JobListing) j =>
      if pairKey j ∈ acc.1 then acc else (acc.1 ++ [pairKey j], acc.2 ++ [j]))
    ([], [])).2

/-- The `SeenJob(...)` constructor call in the persistence loop. -/
def mkSeenRow (userId now : Nat) (j : JobListing) : SeenRow :=
  { userId := userId, jobId := j.jobId, title := j.title, company := j.company,
    url := j.url, location := j.location,
    description := if j.description = "" then "" else ⟨j.description.data.take 2000⟩,
    salary := j.salary, source := j.source, postedDate := j.postedDate,
    jobType := j.jobType, remote := j.remote, matchScore := j.matchScore,
    matchReason := j.matchReason, firstSeenAt := now, lastSeenAt := now, sentAt := none }

/-- The `sent_at` bulk update after a confirmed send: rows of this user
whose id is among the notified identities. -/
def markSent (seen : List SeenRow) (userId : Nat) (ids : List String) (now : Nat) :
    List SeenRow :=
  seen.map fun r =>
    if r.userId = userId ∧ r.jobId ∈ ids then { r with sentAt := some now } else r

/-- What the notification email contains: either the matched listings or
the "no new matches" summary (jobs fetched, new jobs). -/
inductive EmailKind where
  | matches : List JobListing → EmailKind
  | noMatches : Nat → Nat → EmailKind
deriving DecidableEq

/-- Step 4 of the pipeline: configuration guards, the email attempt, the
send outcome and the `sent_at` update.  Returns
(attempt, email_sent, email_error, seen rows). -/
def emailPhase (config : AppConfig) (resendKey : String) (userId jobsFetched newCount : Nat)
    (matchedJobs : List JobListing) (sendOutcome : Except String Unit) (now : Nat)
    (seen : List SeenRow) : Option EmailKind × Bool × Option String × List SeenRow :=
  if config.email.senderEmail = "" then
    (none, false, some "Sender email not configured", seen)
  else if resendKey = "" ∧ config.email.senderPassword = "" then
    (none, false, some "Sender password not configured (or add a Resend API key)", seen)
  else if config.email.recipientEmail = "" then
    (none, false, some "Recipient email not configured", seen)
  else
    let kind := if matchedJobs ≠ [] then EmailKind.matches matchedJobs
                else EmailKind.noMatches jobsFetched newCount
    match sendOutcome with
    | .ok _ =>
        (some kind, true, none,
         markSent seen userId (matchedJobs.map JobListing.jobId) now)
    | .error e => (some kind, false, some ("Email error: " ++ e), seen)

/-- The observable outcome of one `run_pipeline_for_user` invocation. -/
structure PipelineResult where
  db : Db
  emailAttempt : Option EmailKind
  emailSent : Bool
deriving DecidableEq

/-- `all_jobs` of a run: the aggregator's result under this user's config. -/
def pipelineFetched (st : UserSettingsRow) (serp : String → Source)
    (indeed linkedin : Source) : List JobListing :=
  fetchAllJobs (buildAppConfigForUser st) serp indeed linkedin

/-- `new_jobs` of a run: fetched listings whose id is unseen for this user
(also `[]` on the zero-fetch short-circuit, where the source skips the
filter but leaves `new_jobs = []`). -/
def pipelineNewJobs (db : Db) (userId : Nat) (st : UserSettingsRow)
    (serp : String → Source) (indeed linkedin : Source) : List JobListing :=
  (pipelineFetched st serp indeed linkedin).filter
    fun j => j.jobId ∉ seenIdsFor db.seen userId

/-- The scored `new_jobs` (the listings as mutated by `score_and_filter_jobs`,
which are what the persistence loop stores). -/
def pipelineScoredNew (db : Db) (userId : Nat) (p : ProfileData) (st : UserSettingsRow)
    (serp : String → Source) (indeed linkedin : Source) (ai : AiOracle) : List JobListing :=
  (pipelineNewJobs db userId st serp indeed linkedin).map
    (assignScore (augmentProfile p (buildAppConfigForUser st)) (buildAppConfigForUser st) ai)

/-- `matched_jobs` of a run after the secondary `(title, company)` dedup
pass (empty on either zero short-circuit). -/
def pipelineMatched (db : Db) (userId : Nat) (p : ProfileData) (st : UserSettingsRow)
    (serp : String → Source) (indeed linkedin : Source) (ai : AiOracle) : List JobListing :=
  let config := buildAppConfigForUser st
  let newJobs := pipelineNewJobs db userId st serp indeed linkedin
  if newJobs = [] then []
  else secondaryDedup (scoreAndFilterJobs (augmentProfile p config) newJobs config ai)

/-- `run_pipeline_for_user`: the full per-user pipeline.  External effects
are passed as oracles: the three listing sources, the AI scorer response
and the email transport outcome; `now` is the run timestamp.  A missing
profile or settings row returns early (logging only).  The two zero
short-circuits of the source (`all_jobs` empty, `new_jobs` empty) both
leave `new_jobs = []`, so the dedup filter computes the same value
unconditionally, and scoring/persistence are guarded on `new_jobs ≠ []`. -/
def runPipelineForUser (db : Db) (userId : Nat)
    (profileRow? : Option ProfileData) (settings? : Option UserSettingsRow)
    (serp : String → Source) (indeed linkedin : Source) (ai : AiOracle)
    (sendOutcome : Except String Unit) (now : Nat) : PipelineResult :=
  match profileRow?, settings? with
  | some profileData0, some settings =>
      let config := buildAppConfigForUser settings
      let jobsFetched := (pipelineFetched settings serp indeed linkedin).length
      let newJobs := pipelineNewJobs db userId settings serp indeed linkedin
      let scoredNew := pipelineScoredNew db userId profileData0 settings serp indeed linkedin ai
      let matchedJobs := pipelineMatched db userId profileData0 settings serp indeed linkedin ai
      let seenAfterPersist :=
        if newJobs = [] then db.seen
        else db.seen ++ scoredNew.map (mkSeenRow userId now)
      let step4 := emailPhase config settings.resendApiKey userId jobsFetched
        newJobs.length matchedJobs sendOutcome now seenAfterPersist
      let runs := db.runs ++
        [{ userId := userId, jobsFetched := jobsFetched, newJobsFound := newJobs.length,
           jobsMatched := matchedJobs.length, emailSent := step4.2.1,
           errorMessage := step4.2.2.1 }]
      ⟨⟨step4.2.2.2, runs⟩, step4.1, step4.2.1⟩
  | _, _ => ⟨db, none, false⟩

/-- The three transport guards of Step 4 all pass: a sender address, a
password or Resend key, and a recipient address are configured. -/
def transportConfigured (st : UserSettingsRow) : Prop :=
  st.senderEmail ≠ "" ∧ (st.resendApiKey ≠ "" ∨ st.senderPassword ≠ "") ∧ st.recipientEmail ≠ ""

instance (st : UserSettingsRow) : Decidable (transportConfigured st) := by
  unfold transportConfigured; infer_instance

/-! ## CLI dedup store (`job_agent/storage/database.py`) -/

/-- A `seen_jobs` row of the CLI SQLite store (global, keyed by job id). -/
structure CliSeenRow where
  jobId : String
  title : String
  company : String
  url : String
  location : String
  source : String
  matchScore : ℚ
  firstSeenAt : Nat
  lastSeenAt : Nat
  sentAt : Option Nat
deriving DecidableEq

/-- `JobDatabase.is_job_seen`. -/
def isJobSeen (seen : List CliSeenRow) (jid : String) : Bool := seen.any (·.jobId = jid)

/-- `JobDatabase.filter_new_jobs`: returns the unseen jobs in order and
updates `last_seen_at = now` on every already-seen id. -/
def filterNewJobs (seen : List CliSeenRow) (jobs : List JobListing) (now : Nat) :
    List CliSeenRow × List JobListing :=
  jobs.foldl
    (fun acc j =>
      if isJobSeen acc.1 j.jobId then
        (acc.1.map fun r => if r.jobId = j.jobId then { r with lastSeenAt := now } else r,
         acc.2)
      else (acc.1, acc.2 ++ [j]))
    (seen, [])

/-! # Helper lemmas -/

theorem orS_empty (x : String) : orS x "" = x := by
  unfold orS; split <;> simp_all

/-- Filtering an `orderedInsert` with a predicate compatible with the order
(`p`-elements are `r`-below the inserted element when it satisfies `p`)
inserts at the front of the filtered list. -/
theorem filter_orderedInsert {α : Type} (r : α → α → Prop) [DecidableRel r] (p : α → Bool)
    (hcomp : ∀ a b, p a = true → p b = true → r a b) (a : α) :
    ∀ l : List α, (List.orderedInsert r a l).filter p =
      if p a then a :: l.filter p else l.filter p := by
  intro l
  induction l with
  | nil => cases hpa : p a <;> simp [List.orderedInsert, List.filter, hpa]
  | cons b l ih =>
      by_cases hab : r a b
      · cases hpa : p a <;> simp [List.orderedInsert, hab, List.filter, hpa]
      · cases hpa : p a
        · simp only [List.orderedInsert, if_neg hab, List.filter]
          cases hpb : p b <;> simp [ih, hpa]
        · have hpb : p b = false := by
            cases hpb : p b
            · rfl
            · exact absurd (hcomp a b hpa hpb) hab
          simp only [List.orderedInsert, if_neg hab, List.filter, hpb]
          simp [ih, hpa]

/-- Stability of `insertionSort`: the subsequence of elements satisfying an
order-compatible predicate is unchanged. -/
theorem filter_insertionSort {α : Type} (r : α → α → Prop) [DecidableRel r] (p : α → Bool)
    (hcomp : ∀ a b, p a = true → p b = true → r a b) :
    ∀ l : List α, (l.insertionSort r).filter p = l.filter p := by
  intro l
  induction l with
  | nil => rfl
  | cons a l ih =>
      rw [List.insertionSort, filter_orderedInsert r p hcomp, ih]
      cases hpa : p a <;> simp [List.filter, hpa]

/-! # Claims -/

/-- **C1.**  `JobListing.job_id` is the 64-lowercase-hex-character SHA-256
digest of the lower-cased, trimmed, pipe-joined `title|company|url` triple:
two listings agreeing field-wise on the normalized triple have equal ids
regardless of description, source, score or any other attribute (and the
function is deterministic), and every id is 64 hex characters. -/
theorem C1_jobId_identity :
    (∀ j1 j2 : JobListing,
        pyLower (pyStrip j1.title) = pyLower (pyStrip j2.title) →
        pyLower (pyStrip j1.company) = pyLower (pyStrip j2.company) →
        pyLower (pyStrip j1.url) = pyLower (pyStrip j2.url) →
        j1.jobId = j2.jobId) ∧
    (∀ j : JobListing, j.jobId.length = 64 ∧ ∀ c ∈ j.jobId.data, c ∈ hexDigits) := by
  constructor
  · intro j1 j2 h1 h2 h3
    unfold JobListing.jobId normTriple
    rw [h1, h2, h3]
  · intro j
    exact ⟨sha256Hex_length _, sha256Hex_hex _⟩

def c1ListingA : JobListing :=
  { title := "  Senior Engineer ", company := "Acme Corp", url := "HTTPS://X.com/1",
    description := "alpha", source := "serpapi", matchScore := 0.9, remote := true }

def c1ListingB : JobListing :=
  { title := "senior engineer", company := "ACME CORP", url := "https://x.com/1",
    description := "completely different text", source := "indeed" }

theorem C1_jobId_identity_witness :
    c1ListingA.jobId = c1ListingB.jobId ∧
    (c1ListingA.jobId.length = 64 ∧ ∀ c ∈ c1ListingA.jobId.data, c ∈ hexDigits) :=
  ⟨C1_jobId_identity.1 c1ListingA c1ListingB (by decide) (by decide) (by decide),
   C1_jobId_identity.2 c1ListingA⟩

/-- **C5.**  `score_and_filter_jobs` scores every listing, returns exactly
those whose assigned score is at or above the threshold, sorted by score
descending, and stably: for each score value, the listings carrying it
appear in original fetch order. -/
theorem C5_scoreAndFilter_contract (profile : ProfileData) (jobs : List JobListing)
    (config : AppConfig) (ai : AiOracle) :
    (∀ j ∈ scoreAndFilterJobs profile jobs config ai,
        config.matching.scoreThreshold ≤ j.matchScore) ∧
    (scoreAndFilterJobs profile jobs config ai).Sorted
        (fun x y => y.matchScore ≤ x.matchScore) ∧
    List.Perm (scoreAndFilterJobs profile jobs config ai)
      ((jobs.map (assignScore profile config ai)).filter
        (fun j => config.matching.scoreThreshold ≤ j.matchScore)) ∧
    ∀ s : ℚ, (scoreAndFilterJobs profile jobs config ai).filter (fun j => j.matchScore = s) =
      ((jobs.map (assignScore profile config ai)).filter
          (fun j => config.matching.scoreThreshold ≤ j.matchScore)).filter
        (fun j => j.matchScore = s) := by
  letI : IsTotal JobListing (fun x y => y.matchScore ≤ x.matchScore) :=
    ⟨fun a b => le_total b.matchScore a.matchScore⟩
  letI : IsTrans JobListing (fun x y => y.matchScore ≤ x.matchScore) :=
    ⟨fun _ _ _ h1 h2 => le_trans h2 h1⟩
  refine ⟨?_, ?_, ?_, ?_⟩
  · intro j hj
    simp only [scoreAndFilterJobs] at hj
    have hm := (List.perm_insertionSort _ _).mem_iff.mp hj
    rw [List.mem_filter] at hm
    exact of_decide_eq_true hm.2
  · simpa only [scoreAndFilterJobs] using
      List.sorted_insertionSort (fun x y : JobListing => y.matchScore ≤ x.matchScore) _
  · simpa only [scoreAndFilterJobs] using List.perm_insertionSort
      (fun x y : JobListing => y.matchScore ≤ x.matchScore) _
  · intro s
    simp only [scoreAndFilterJobs]
    exact filter_insertionSort _ _
      (fun a b ha hb => by
        have ha' := of_decide_eq_true ha
        have hb' := of_decide_eq_true hb
        simp only [ha', hb']
        exact le_refl _) _

def c5profile : ProfileData := { jobTitles := ["Engineer"] }

def c5job1 : JobListing := { title := "Engineer", company := "A", url := "u1" }

def c5job2 : JobListing := { title := "Engineer", company := "B", url := "u2" }

def c5job3 : JobListing := { title := "Manager", company := "C", url := "u3" }

def c5ai : AiOracle := fun _ _ => AiResponse.apiError "unavailable"

theorem C5_scoreAndFilter_contract_witness :
    ({} : AppConfig).matching.scoreThreshold ≤
      (assignScore c5profile {} c5ai c5job1).matchScore ∧
    (scoreAndFilterJobs c5profile [c5job1, c5job2, c5job3] {} c5ai).Sorted
        (fun x y => y.matchScore ≤ x.matchScore) ∧
    List.Perm (scoreAndFilterJobs c5profile [c5job1, c5job2, c5job3] {} c5ai)
      (([c5job1, c5job2, c5job3].map (assignScore c5profile {} c5ai)).filter
        (fun j => ({} : AppConfig).matching.scoreThreshold ≤ j.matchScore)) ∧
    (scoreAndFilterJobs c5profile [c5job1, c5job2, c5job3] {} c5ai).filter
        (fun j => j.matchScore = 3 / 10) =
      (([c5job1, c5job2, c5job3].map (assignScore c5profile {} c5ai)).filter
          (fun j => ({} : AppConfig).matching.scoreThreshold ≤ j.matchScore)).filter
        (fun j => j.matchScore = 3 / 10) :=
  ⟨(C5_scoreAndFilter_contract c5profile [c5job1, c5job2, c5job3] {} c5ai).1 _ (by decide),
   (C5_scoreAndFilter_contract c5profile [c5job1, c5job2, c5job3] {} c5ai).2.1,
   (C5_scoreAndFilter_contract c5profile [c5job1, c5job2, c5job3] {} c5ai).2.2.1,
   (C5_scoreAndFilter_contract c5profile [c5job1, c5job2, c5job3] {} c5ai).2.2.2 (3 / 10)⟩

/-- The error string attached by Step 4 is one of the three configuration
messages, an email transport error, or absent. -/
theorem emailPhase_error_cases (config : AppConfig) (resendKey : String)
    (userId jobsFetched newCount : Nat) (matchedJobs : List JobListing)
    (sendOutcome : Except String Unit) (now : Nat) (seen : List SeenRow) :
    (emailPhase config resendKey userId jobsFetched newCount matchedJobs
        sendOutcome now seen).2.2.1 = none ∨
    (emailPhase config resendKey userId jobsFetched newCount matchedJobs
        sendOutcome now seen).2.2.1 = some "Sender email not configured" ∨
    (emailPhase config resendKey userId jobsFetched newCount matchedJobs
        sendOutcome now seen).2.2.1 =
      some "Sender password not configured (or add a Resend API key)" ∨
    (emailPhase config resendKey userId jobsFetched newCount matchedJobs
        sendOutcome now seen).2.2.1 = some "Recipient email not configured" ∨
    ∃ e, (emailPhase config resendKey userId jobsFetched newCount matchedJobs
        sendOutcome now seen).2.2.1 = some ("Email error: " ++ e) := by
  simp only [emailPhase]
  split
  · exact Or.inr (Or.inl rfl)
  · split
    · exact Or.inr (Or.inr (Or.inl rfl))
    · split
      · exact Or.inr (Or.inr (Or.inr (Or.inl rfl)))
      · rcases sendOutcome with e | u
        · exact Or.inr (Or.inr (Or.inr (Or.inr ⟨e, rfl⟩)))
        · exact Or.inl rfl

/-- **C4.**  Whenever the AI call's outcome is anything but a successfully
parsed response (raised API error, import failure, unparseable JSON, bad
score field), the listing's final score and reason are exactly the keyword
strategy's, and (second conjunct) a pipeline run can only carry an email
phase error on its run record — scoring failures are never surfaced. -/
theorem C4_ai_fallback (profile : ProfileData) (config : AppConfig) (ai : AiOracle)
    (j : JobListing) (hfail : ∀ s r, ai profile j ≠ AiResponse.parsed s r) :
    ((assignScore profile config ai j).matchScore = (scoreJob profile j).1 ∧
     (assignScore profile config ai j).matchReason = (scoreJob profile j).2) ∧
    ∀ (db : Db) (userId : Nat) (p : ProfileData) (st : UserSettingsRow)
      (serp : String → Source) (indeed linkedin : Source) (ai' : AiOracle)
      (sendOutcome : Except String Unit) (now : Nat) (r : RunRow),
      r ∈ (runPipelineForUser db userId (some p) (some st) serp indeed linkedin ai'
            sendOutcome now).db.runs →
      r ∈ db.runs ∨ r.errorMessage = none ∨
      r.errorMessage = some "Sender email not configured" ∨
      r.errorMessage = some "Sender password not configured (or add a Resend API key)" ∨
      r.errorMessage = some "Recipient email not configured" ∨
      ∃ e, r.errorMessage = some ("Email error: " ++ e) := by
  constructor
  · simp only [assignScore]
    split
    · rcases h : ai profile j with _ | m | m | m | ⟨s, r⟩
      · simp [scoreJobWithAi, h]
      · simp [scoreJobWithAi, h]
      · simp [scoreJobWithAi, h]
      · simp [scoreJobWithAi, h]
      · exact absurd h (hfail s r)
    · exact ⟨rfl, rfl⟩
  · intro db userId p st serp indeed linkedin ai' sendOutcome now r hr
    simp only [runPipelineForUser, List.mem_append, List.mem_singleton] at hr
    rcases hr with hr | hr
    · exact Or.inl hr
    · subst hr
      exact Or.inr (emailPhase_error_cases _ _ _ _ _ _ _ _ _)

def c4profile : ProfileData := { jobTitles := ["Engineer"] }

def c4job : JobListing := { title := "Engineer", company := "A", url := "u1" }

def c4config : AppConfig :=
  { matching := { useAiMatching := true }, apiKeys := { openaiApiKey := "sk-test" } }

def c4ai : AiOracle := fun _ _ => AiResponse.invalidJson "not json"

theorem C4_ai_fallback_witness :
    ((assignScore c4profile c4config c4ai c4job).matchScore = (scoreJob c4profile c4job).1 ∧
     (assignScore c4profile c4config c4ai c4job).matchReason = (scoreJob c4profile c4job).2) ∧
    ∀ (db : Db) (userId : Nat) (p : ProfileData) (st : UserSettingsRow)
      (serp : String → Source) (indeed linkedin : Source) (ai' : AiOracle)
      (sendOutcome : Except String Unit) (now : Nat) (r : RunRow),
      r ∈ (runPipelineForUser db userId (some p) (some st) serp indeed linkedin ai'
            sendOutcome now).db.runs →
      r ∈ db.runs ∨ r.errorMessage = none ∨
      r.errorMessage = some "Sender email not configured" ∨
      r.errorMessage = some "Sender password not configured (or add a Resend API key)" ∨
      r.errorMessage = some "Recipient email not configured" ∨
      ∃ e, r.errorMessage = some ("Email error: " ++ e) :=
  C4_ai_fallback c4profile c4config c4ai c4job
    (fun s r h => AiResponse.noConfusion h)

/-- `allJobs.extend(jobs)` on a successful source result, unchanged on a
failure: the value appended by one `try` block of `fetch_all_jobs`. -/
def okList (x : Except String (List JobListing)) : List JobListing :=
  match x with
  | .ok l => l
  | .error _ => []

/-- **C6.**  `fetch_all_jobs` never propagates a source failure: its result
is exactly the concatenation, title by title and source by source in fixed
order, of the successful sources' listings (each source's own order
preserved), and if every source fails for every title the result is the
empty list rather than an error. -/
theorem C6_fetchAll_isolation (config : AppConfig) (serp : String → Source)
    (indeed linkedin : Source) :
    fetchAllJobs config serp indeed linkedin =
      (config.search.jobTitles.map fun t =>
        okList (serp config.apiKeys.serpapiKey t config.search.location
            config.search.maxResultsPerSource) ++
          okList (indeed t config.search.location config.search.maxResultsPerSource) ++
          okList (linkedin t config.search.location config.search.maxResultsPerSource)).flatten ∧
    ((∀ t ∈ config.search.jobTitles,
        (∃ e, serp config.apiKeys.serpapiKey t config.search.location
            config.search.maxResultsPerSource = .error e) ∧
        (∃ e, indeed t config.search.location config.search.maxResultsPerSource = .error e) ∧
        (∃ e, linkedin t config.search.location config.search.maxResultsPerSource = .error e)) →
      fetchAllJobs config serp indeed linkedin = []) := by
  have main : ∀ (titles : List String) (acc : List JobListing),
      titles.foldl
        (fun allJobs title =>
          let loc := config.search.location
          let maxR := config.search.maxResultsPerSource
          let allJobs :=
            match serp config.apiKeys.serpapiKey title loc maxR with
            | .ok jobs => allJobs ++ jobs
            | .error _ => allJobs
          let allJobs :=
            match indeed title loc maxR with
            | .ok jobs => allJobs ++ jobs
            | .error _ => allJobs
          let allJobs :=
            match linkedin title loc maxR with
            | .ok jobs => allJobs ++ jobs
            | .error _ => allJobs
          allJobs)
        acc =
      acc ++ (titles.map fun t =>
        okList (serp config.apiKeys.serpapiKey t config.search.location
            config.search.maxResultsPerSource) ++
          okList (indeed t config.search.location config.search.maxResultsPerSource) ++
          okList (linkedin t config.search.location config.search.maxResultsPerSource)).flatten := by
    intro titles
    induction titles with
    | nil => intro acc; simp
    | cons t ts ih =>
        intro acc
        rw [List.foldl_cons, ih]
        rcases h1 : serp config.apiKeys.serpapiKey t config.search.location
            config.search.maxResultsPerSource with e1 | l1 <;>
          rcases h2 : indeed t config.search.location config.search.maxResultsPerSource
            with e2 | l2 <;>
          rcases h3 : linkedin t config.search.location config.search.maxResultsPerSource
            with e3 | l3 <;>
          simp [h1, h2, h3, okList, List.append_assoc]
  constructor
  · exact main config.search.jobTitles []
  · intro hfailAll
    rw [show fetchAllJobs config serp indeed linkedin =
        (config.search.jobTitles.map fun t =>
          okList (serp config.apiKeys.serpapiKey t config.search.location
              config.search.maxResultsPerSource) ++
            okList (indeed t config.search.location config.search.maxResultsPerSource) ++
            okList (linkedin t config.search.location config.search.maxResultsPerSource)).flatten
      from main config.search.jobTitles []]
    generalize hts : config.search.jobTitles = ts at hfailAll
    clear hts
    induction ts with
    | nil => rfl
    | cons t ts ih =>
        rcases hfailAll t (List.mem_cons_self t ts) with ⟨⟨e1, h1⟩, ⟨e2, h2⟩, ⟨e3, h3⟩⟩
        simp only [List.map_cons, List.flatten_cons, h1, h2, h3, okList, List.nil_append]
        exact ih fun x hx => hfailAll x (List.mem_cons_of_mem t hx)

def c6failSerp : String → Source := fun _ _ _ _ => .error "serpapi down"

def c6failSrc : Source := fun _ _ _ => .error "network error"

theorem C6_fetchAll_isolation_witness :
    fetchAllJobs {} c6failSerp c6failSrc c6failSrc =
      (({} : AppConfig).search.jobTitles.map fun t =>
        okList (c6failSerp ({} : AppConfig).apiKeys.serpapiKey t
            ({} : AppConfig).search.location ({} : AppConfig).search.maxResultsPerSource) ++
          okList (c6failSrc t ({} : AppConfig).search.location
            ({} : AppConfig).search.maxResultsPerSource) ++
          okList (c6failSrc t ({} : AppConfig).search.location
            ({} : AppConfig).search.maxResultsPerSource)).flatten ∧
    fetchAllJobs {} c6failSerp c6failSrc c6failSrc = [] :=
  ⟨(C6_fetchAll_isolation {} c6failSerp c6failSrc c6failSrc).1,
   (C6_fetchAll_isolation {} c6failSerp c6failSrc c6failSrc).2
     (fun _ _ => ⟨⟨"serpapi down", rfl⟩, ⟨"network error", rfl⟩, ⟨"network error", rfl⟩⟩)⟩

/-- Full characterization of Step 4: when the transport guards pass, one
email is attempted (matches or summary), it counts as sent exactly on a
transport success, `sent_at` is updated only then, and the error string
records a transport failure; when a guard trips, no email is attempted and
the reason is recorded. -/
theorem emailPhase_spec (config : AppConfig) (resendKey : String)
    (userId jobsFetched newCount : Nat) (matchedJobs : List JobListing)
    (sendOutcome : Except String Unit) (now : Nat) (seen : List SeenRow) :
    (config.email.senderEmail ≠ "" ∧
        (resendKey ≠ "" ∨ config.email.senderPassword ≠ "") ∧
        config.email.recipientEmail ≠ "" →
      (emailPhase config resendKey userId jobsFetched newCount matchedJobs
          sendOutcome now seen).1 =
        some (if matchedJobs = [] then EmailKind.noMatches jobsFetched newCount
              else EmailKind.matches matchedJobs) ∧
      ((emailPhase config resendKey userId jobsFetched newCount matchedJobs
          sendOutcome now seen).2.1 = true ↔ sendOutcome = .ok ()) ∧
      (emailPhase config resendKey userId jobsFetched newCount matchedJobs
          sendOutcome now seen).2.2.2 =
        (match sendOutcome with
         | .ok _ => markSent seen userId (matchedJobs.map JobListing.jobId) now
         | .error _ => seen) ∧
      (emailPhase config resendKey userId jobsFetched newCount matchedJobs
          sendOutcome now seen).2.2.1 =
        (match sendOutcome with
         | .ok _ => none
         | .error e => some ("Email error: " ++ e))) ∧
    (¬(config.email.senderEmail ≠ "" ∧
        (resendKey ≠ "" ∨ config.email.senderPassword ≠ "") ∧
        config.email.recipientEmail ≠ "") →
      (emailPhase config resendKey userId jobsFetched newCount matchedJobs
          sendOutcome now seen).1 = none ∧
      (emailPhase config resendKey userId jobsFetched newCount matchedJobs
          sendOutcome now seen).2.1 = false ∧
      (emailPhase config resendKey userId jobsFetched newCount matchedJobs
          sendOutcome now seen).2.2.2 = seen) := by
  constructor
  · rintro ⟨h1, h2, h3⟩
    have hg2 : ¬(resendKey = "" ∧ config.email.senderPassword = "") := by
      rintro ⟨ha, hb⟩
      rcases h2 with h | h
      · exact h ha
      · exact h hb
    simp only [emailPhase, if_neg h1, if_neg hg2, if_neg h3]
    rcases sendOutcome with e | u
    · refine ⟨?_, by simp, rfl, rfl⟩
      by_cases hm : matchedJobs = [] <;> simp [hm]
    · refine ⟨?_, by simp, rfl, rfl⟩
      by_cases hm : matchedJobs = [] <;> simp [hm]
  · intro hnc
    by_cases h1 : config.email.senderEmail = ""
    · simp [emailPhase, h1]
    · by_cases h2 : resendKey = "" ∧ config.email.senderPassword = ""
      · simp [emailPhase, if_neg h1, h2]
      · by_cases h3 : config.email.recipientEmail = ""
        · simp [emailPhase, if_neg h1, if_neg h2, h3]
        · exact absurd ⟨h1, not_and_or.mp h2, h3⟩ hnc

/-- The transport fields of the built config are the settings row's own
(`x or ""` is the identity). -/
theorem buildConfig_emailFields (st : UserSettingsRow) :
    (buildAppConfigForUser st).email.senderEmail = st.senderEmail ∧
    (buildAppConfigForUser st).email.senderPassword = st.senderPassword ∧
    (buildAppConfigForUser st).email.recipientEmail = st.recipientEmail :=
  ⟨orS_empty _, orS_empty _, orS_empty _⟩

/-- **C2 (amended).**  A RunRecord is appended exactly when the profile and
settings rows are found: every such invocation appends exactly one row to
`run_history_v2`, and an invocation with either row missing returns with
the database untouched and no record written (the source logs and
`return`s before `_record_run`). -/
theorem C2_run_record (db : Db) (userId : Nat) (p : ProfileData) (st : UserSettingsRow)
    (serp : String → Source) (indeed linkedin : Source) (ai : AiOracle)
    (sendOutcome : Except String Unit) (now : Nat) :
    (∃ r : RunRow,
      (runPipelineForUser db userId (some p) (some st) serp indeed linkedin ai
          sendOutcome now).db.runs = db.runs ++ [r]) ∧
    (∀ settings? : Option UserSettingsRow,
      runPipelineForUser db userId none settings? serp indeed linkedin ai
          sendOutcome now = ⟨db, none, false⟩) ∧
    runPipelineForUser db userId (some p) none serp indeed linkedin ai
        sendOutcome now = ⟨db, none, false⟩ := by
  refine ⟨⟨_, rfl⟩, ?_, rfl⟩
  intro settings?
  rcases settings? with _ | st' <;> rfl

def cexSerp : String → Source := fun _ _ _ _ => .error "serpapi down"

def cexSrc : Source := fun _ _ _ => .error "network error"

def cexAi : AiOracle := fun _ _ => AiResponse.apiError "disabled"

/-- **C2 (counterexample).**  An invocation whose profile row is missing
terminates with an empty run history: no RunRecord is created, refuting
"exactly one RunRecord per invocation, regardless of outcome". -/
theorem C2_run_record_counterexample :
    (runPipelineForUser ⟨[], []⟩ 1 none (some {}) cexSerp cexSrc cexSrc cexAi
        (.ok ()) 0).db.runs = [] := rfl

theorem C2_run_record_witness :
    (∃ r : RunRow,
      (runPipelineForUser ⟨[], []⟩ 1 (some {}) (some {}) cexSerp cexSrc cexSrc cexAi
          (.ok ()) 0).db.runs = ([] : List RunRow) ++ [r]) ∧
    (∀ settings? : Option UserSettingsRow,
      runPipelineForUser ⟨[], []⟩ 1 none settings? cexSerp cexSrc cexSrc cexAi
          (.ok ()) 0 = ⟨⟨[], []⟩, none, false⟩) ∧
    runPipelineForUser ⟨[], []⟩ 1 (some {}) none cexSerp cexSrc cexSrc cexAi
        (.ok ()) 0 = ⟨⟨[], []⟩, none, false⟩ :=
  C2_run_record ⟨[], []⟩ 1 {} {} cexSerp cexSrc cexSrc cexAi (.ok ()) 0

/-- **C3 (amended).**  Whenever the transport is configured, the pipeline
attempts exactly one email on every run — containing the (secondary-deduped)
matched listings when that set is non-empty, and otherwise a "no new
matches" summary with the fetched/new counts — and the email counts as sent
exactly when the transport call succeeds.  When the transport is not
configured, no email is attempted.  (The code does not short-circuit past
notification on empty runs; the "no matches" summary is still sent.) -/
theorem C3_notification (db : Db) (userId : Nat) (p : ProfileData) (st : UserSettingsRow)
    (serp : String → Source) (indeed linkedin : Source) (ai : AiOracle)
    (sendOutcome : Except String Unit) (now : Nat) :
    (transportConfigured st →
      (runPipelineForUser db userId (some p) (some st) serp indeed linkedin ai
          sendOutcome now).emailAttempt =
        some (if pipelineMatched db userId p st serp indeed linkedin ai = []
              then EmailKind.noMatches (pipelineFetched st serp indeed linkedin).length
                  (pipelineNewJobs db userId st serp indeed linkedin).length
              else EmailKind.matches (pipelineMatched db userId p st serp indeed linkedin ai)) ∧
      ((runPipelineForUser db userId (some p) (some st) serp indeed linkedin ai
          sendOutcome now).emailSent = true ↔ sendOutcome = .ok ())) ∧
    (¬transportConfigured st →
      (runPipelineForUser db userId (some p) (some st) serp indeed linkedin ai
          sendOutcome now).emailAttempt = none ∧
      (runPipelineForUser db userId (some p) (some st) serp indeed linkedin ai
          sendOutcome now).emailSent = false) := by
  obtain ⟨hb1, hb2, hb3⟩ := buildConfig_emailFields st
  constructor
  · intro hconf
    have hspec := (emailPhase_spec (buildAppConfigForUser st) st.resendApiKey userId
      (pipelineFetched st serp indeed linkedin).length
      (pipelineNewJobs db userId st serp indeed linkedin).length
      (pipelineMatched db userId p st serp indeed linkedin ai) sendOutcome now
      (if pipelineNewJobs db userId st serp indeed linkedin = [] then db.seen
       else db.seen ++ (pipelineScoredNew db userId p st serp indeed linkedin ai).map
         (mkSeenRow userId now))).1
      (by rw [hb1, hb2, hb3]; exact hconf)
    exact ⟨hspec.1, hspec.2.1⟩
  · intro hnc
    have hspec := (emailPhase_spec (buildAppConfigForUser st) st.resendApiKey userId
      (pipelineFetched st serp indeed linkedin).length
      (pipelineNewJobs db userId st serp indeed linkedin).length
      (pipelineMatched db userId p st serp indeed linkedin ai) sendOutcome now
      (if pipelineNewJobs db userId st serp indeed linkedin = [] then db.seen
       else db.seen ++ (pipelineScoredNew db userId p st serp indeed linkedin ai).map
         (mkSeenRow userId now))).2
      (by rw [hb1, hb2, hb3]; exact hnc)
    exact ⟨hspec.1, hspec.2.1⟩

def c3settings : UserSettingsRow :=
  { senderEmail := "agent@example.com", senderPassword := "app-password",
    recipientEmail := "me@example.com" }

/-- **C3 (counterexample).**  A run that fetches zero listings, with the
transport configured, still builds and sends a notification (the "no new
matches" summary): `email_sent` is recorded `true` on a zero-count run,
refuting "no notification is sent ... only when the matched set is
non-empty". -/
theorem C3_notification_counterexample :
    (runPipelineForUser ⟨[], []⟩ 1 (some {}) (some c3settings) cexSerp cexSrc cexSrc
        cexAi (.ok ()) 7).emailSent = true ∧
    (runPipelineForUser ⟨[], []⟩ 1 (some {}) (some c3settings) cexSerp cexSrc cexSrc
        cexAi (.ok ()) 7).emailAttempt = some (EmailKind.noMatches 0 0) ∧
    (runPipelineForUser ⟨[], []⟩ 1 (some {}) (some c3settings) cexSerp cexSrc cexSrc
        cexAi (.ok ()) 7).db.runs =
      [{ userId := 1, jobsFetched := 0, newJobsFound := 0, jobsMatched := 0,
         emailSent := true, errorMessage := none }] := by
  refine ⟨rfl, rfl, rfl⟩

theorem C3_notification_witness :
    ((runPipelineForUser ⟨[], []⟩ 1 (some {}) (some c3settings) cexSerp cexSrc cexSrc
        cexAi (.ok ()) 7).emailAttempt =
      some (if pipelineMatched ⟨[], []⟩ 1 {} c3settings cexSerp cexSrc cexSrc cexAi = []
            then EmailKind.noMatches (pipelineFetched c3settings cexSerp cexSrc cexSrc).length
                (pipelineNewJobs ⟨[], []⟩ 1 c3settings cexSerp cexSrc cexSrc).length
            else EmailKind.matches
                (pipelineMatched ⟨[], []⟩ 1 {} c3settings cexSerp cexSrc cexSrc cexAi)) ∧
     ((runPipelineForUser ⟨[], []⟩ 1 (some {}) (some c3settings) cexSerp cexSrc cexSrc
        cexAi (.ok ()) 7).emailSent = true ↔ (.ok () : Except String Unit) = .ok ())) :=
  (C3_notification ⟨[], []⟩ 1 {} c3settings cexSerp cexSrc cexSrc cexAi (.ok ()) 7).1
    (by refine ⟨by decide, Or.inr (by decide), by decide⟩)

/-- **C8 (amended).**  Word-boundary matching for skills of length ≤ 2
applies only to the built-in `TECH_SKILLS` extraction; profile skills are
additionally matched by plain substring with no word-boundary guard, so a
profile skill is counted as overlapping whenever it occurs anywhere in the
listing's title+description text. -/
theorem C8_skill_matching (text : String) (sk : String) (profile : ProfileData)
    (j : JobListing) (s : String) :
    (sk ∈ TECH_SKILLS → sk.length ≤ 2 →
      (sk ∈ extractSkills text ↔ wbSearch sk.data (pyLower text).data = true)) ∧
    (s ∈ profile.skills → pyIn s (jobText j) = true → s ∈ skillsOverlapSet profile j) := by
  constructor
  · intro hmem hlen
    simp only [extractSkills, List.mem_filter, if_pos hlen]
    constructor
    · intro h
      exact h.2
    · intro h
      exact ⟨hmem, h⟩
  · intro hs hin
    simp only [skillsOverlapSet, sInter, List.mem_filter, List.mem_dedup]
    refine ⟨hs, ?_⟩
    have : s ∈ jobSkills profile j := by
      simp only [jobSkills, sUnion, List.mem_dedup, List.mem_append, List.mem_filter]
      exact Or.inr ⟨hs, hin⟩
    simpa using this

def c8profile : ProfileData := { skills := ["r"] }

def c8job : JobListing :=
  { title := "Engineer", company := "X", url := "u", description := "we are hiring" }

/-- **C8 (counterexample).**  `c8job`'s text "engineer we are hiring" has no
standalone token "r" (the word-boundary search fails), yet the profile
skill "r" is counted as matched by the skills sub-score: the reason reads
"Skills: r" and the score is 0.4, refuting "that skill is not counted as
matched". -/
theorem C8_skill_matching_counterexample :
    "r" ∈ skillsOverlapSet c8profile c8job ∧
    wbSearch "r".data (jobText c8job).data = false ∧
    (scoreJob c8profile c8job).2 = "Skills: r" ∧
    (scoreJob c8profile c8job).1 = 2 / 5 := by decide

theorem C8_skill_matching_witness :
    (("r" : String) ∈ extractSkills "are you ready" ↔
      wbSearch "r".data (pyLower "are you ready").data = true) ∧
    ("r" : String) ∈ skillsOverlapSet c8profile c8job :=
  ⟨(C8_skill_matching "are you ready" "r" c8profile c8job "r").1 (by decide) (by decide),
   (C8_skill_matching "are you ready" "r" c8profile c8job "r").2 (by decide) (by decide)⟩

/-! ### CLI `filter_new_jobs` helper lemmas -/

/-- The `last_seen_at` UPDATE preserves which ids are present. -/
theorem isJobSeen_update (l : List CliSeenRow) (jid : String) (now : Nat) (x : String) :
    isJobSeen (l.map fun r => if r.jobId = jid then { r with lastSeenAt := now } else r) x =
      isJobSeen l x := by
  induction l with
  | nil => rfl
  | cons r l ih =>
      simp only [List.map_cons, isJobSeen, List.any_cons] at *
      rw [show (if r.jobId = jid then { r with lastSeenAt := now } else r).jobId = r.jobId
            from by split <;> rfl,
          ih]

/-- No listing whose id is already seen is ever emitted as new by the
`filter_new_jobs` loop. -/
theorem filterNewJobs_notNew (jid : String) (now : Nat) :
    ∀ (jobs : List JobListing) (acc : List CliSeenRow × List JobListing),
      isJobSeen acc.1 jid = true →
      (∀ x ∈ acc.2, x.jobId ≠ jid) →
      ∀ x ∈ (jobs.foldl
          (fun acc j =>
            if isJobSeen acc.1 j.jobId then
              (acc.1.map fun r =>
                if r.jobId = j.jobId then { r with lastSeenAt := now } else r,
               acc.2)
            else (acc.1, acc.2 ++ [j]))
          acc).2, x.jobId ≠ jid := by
  intro jobs
  induction jobs with
  | nil => intro acc hseen hacc; exact hacc
  | cons a rest ih =>
      intro acc hseen hacc
      rw [List.foldl_cons]
      by_cases ha : isJobSeen acc.1 a.jobId = true
      · rw [if_pos ha]
        exact ih _ (by rw [isJobSeen_update]; exact hseen) hacc
      · rw [if_neg ha]
        refine ih _ hseen ?_
        intro x hx
        rcases List.mem_append.mp hx with hx | hx
        · exact hacc x hx
        · rw [List.mem_singleton.mp hx]
          intro hxa
          exact ha (by rw [hxa]; exact hseen)

/-- Once some observed listing carries a seen id, every row with that id
ends the loop with `last_seen_at = now`. -/
theorem filterNewJobs_updated (jid : String) (now : Nat) :
    ∀ (jobs : List JobListing) (acc : List CliSeenRow × List JobListing),
      ((∃ j0 ∈ jobs, j0.jobId = jid) ∧ isJobSeen acc.1 jid = true ∨
        ∀ r ∈ acc.1, r.jobId = jid → r.lastSeenAt = now) →
      ∀ r ∈ (jobs.foldl
          (fun acc j =>
            if isJobSeen acc.1 j.jobId then
              (acc.1.map fun r =>
                if r.jobId = j.jobId then { r with lastSeenAt := now } else r,
               acc.2)
            else (acc.1, acc.2 ++ [j]))
          acc).1, r.jobId = jid → r.lastSeenAt = now := by
  intro jobs
  induction jobs with
  | nil =>
      intro acc h
      rcases h with ⟨⟨j0, hj0, _⟩, _⟩ | h
      · exact absurd hj0 (List.not_mem_nil j0)
      · exact h
  | cons a rest ih =>
      intro acc h
      rw [List.foldl_cons]
      have hupd : ∀ (l : List CliSeenRow) (jid' : String),
          (∀ r ∈ l, r.jobId = jid → r.lastSeenAt = now) →
          ∀ r ∈ l.map (fun r => if r.jobId = jid' then { r with lastSeenAt := now } else r),
            r.jobId = jid → r.lastSeenAt = now := by
        intro l jid' hP r hr hrj
        rcases List.mem_map.mp hr with ⟨r0, hr0, hr0eq⟩
        by_cases hc : r0.jobId = jid'
        · rw [if_pos hc] at hr0eq
          rw [← hr0eq]
        · rw [if_neg hc] at hr0eq
          rw [← hr0eq] at hrj ⊢
          exact hP r0 hr0 hrj
      rcases h with ⟨⟨j0, hj0, hj0id⟩, hseen⟩ | hP
      · rcases List.mem_cons.mp hj0 with rfl | hj0rest
        · rw [if_pos (by rw [hj0id]; exact hseen)]
          refine ih _ (Or.inr ?_)
          intro r hr hrj
          rcases List.mem_map.mp hr with ⟨r0, hr0, hr0eq⟩
          by_cases hc : r0.jobId = j0.jobId
          · rw [if_pos hc] at hr0eq
            rw [← hr0eq]
          · rw [if_neg hc] at hr0eq
            rw [← hr0eq] at hrj
            exact absurd (by rw [hrj, hj0id]) hc
        · by_cases ha : isJobSeen acc.1 a.jobId = true
          · rw [if_pos ha]
            exact ih _ (Or.inl ⟨⟨j0, hj0rest, hj0id⟩, by rw [isJobSeen_update]; exact hseen⟩)
          · rw [if_neg ha]
            exact ih _ (Or.inl ⟨⟨j0, hj0rest, hj0id⟩, hseen⟩)
      · by_cases ha : isJobSeen acc.1 a.jobId = true
        · rw [if_pos ha]
          exact ih _ (Or.inr (hupd _ _ hP))
        · rw [if_neg ha]
          exact ih _ (Or.inr hP)

/-- The final seen rows of a run are either the post-persist rows or their
`markSent` image. -/
theorem emailPhase_seen_cases (config : AppConfig) (resendKey : String)
    (userId jobsFetched newCount : Nat) (matchedJobs : List JobListing)
    (sendOutcome : Except String Unit) (now : Nat) (seen : List SeenRow) :
    (emailPhase config resendKey userId jobsFetched newCount matchedJobs
        sendOutcome now seen).2.2.2 = seen ∨
    (emailPhase config resendKey userId jobsFetched newCount matchedJobs
        sendOutcome now seen).2.2.2 =
      markSent seen userId (matchedJobs.map JobListing.jobId) now := by
  simp only [emailPhase]
  split
  · exact Or.inl rfl
  · split
    · exact Or.inl rfl
    · split
      · exact Or.inl rfl
      · rcases sendOutcome with e | u
        · exact Or.inl rfl
        · exact Or.inr rfl

/-- `markSent` preserves each row's identity, user and `last_seen_at`. -/
theorem markSent_preserves (seen : List SeenRow) (uid : Nat) (ids : List String)
    (now : Nat) (r : SeenRow) (hr : r ∈ seen) :
    ∃ r' ∈ markSent seen uid ids now,
      r'.jobId = r.jobId ∧ r'.userId = r.userId ∧ r'.lastSeenAt = r.lastSeenAt := by
  refine ⟨_, List.mem_map_of_mem _ hr, ?_⟩
  split <;> exact ⟨rfl, rfl, rfl⟩

/-- **C9 (amended).**  The CLI dedup (`JobDatabase.filter_new_jobs`) never
returns an already-seen id as new and sets `last_seen_at = now` on every
row of a re-observed id; the web pipeline's dedup, by contrast, classifies
by id only: every pre-existing row survives the run with its
`last_seen_at` unchanged. -/
theorem C9_lastSeen (seen : List CliSeenRow) (jobs : List JobListing) (now : Nat)
    (j : JobListing) (db : Db) (userId : Nat) (p : ProfileData) (st : UserSettingsRow)
    (serp : String → Source) (indeed linkedin : Source) (ai : AiOracle)
    (sendOutcome : Except String Unit) (now' : Nat) :
    (isJobSeen seen j.jobId = true →
      (∀ x ∈ (filterNewJobs seen jobs now).2, x.jobId ≠ j.jobId) ∧
      (j ∈ jobs →
        ∀ r ∈ (filterNewJobs seen jobs now).1, r.jobId = j.jobId → r.lastSeenAt = now)) ∧
    (∀ r ∈ db.seen,
      ∃ r' ∈ (runPipelineForUser db userId (some p) (some st) serp indeed linkedin ai
          sendOutcome now').db.seen,
        r'.jobId = r.jobId ∧ r'.userId = r.userId ∧ r'.lastSeenAt = r.lastSeenAt) := by
  constructor
  · intro hseen
    constructor
    · exact filterNewJobs_notNew j.jobId now jobs (seen, []) hseen
        (fun x hx => absurd hx (List.not_mem_nil x))
    · intro hj
      exact filterNewJobs_updated j.jobId now jobs (seen, [])
        (Or.inl ⟨⟨j, hj, rfl⟩, hseen⟩)
  · intro r hr
    have hmem : r ∈ (if pipelineNewJobs db userId st serp indeed linkedin = [] then db.seen
        else db.seen ++ (pipelineScoredNew db userId p st serp indeed linkedin ai).map
          (mkSeenRow userId now')) := by
      split
      · exact hr
      · exact List.mem_append_left _ hr
    rcases emailPhase_seen_cases (buildAppConfigForUser st) st.resendApiKey userId
        (pipelineFetched st serp indeed linkedin).length
        (pipelineNewJobs db userId st serp indeed linkedin).length
        (pipelineMatched db userId p st serp indeed linkedin ai) sendOutcome now'
        (if pipelineNewJobs db userId st serp indeed linkedin = [] then db.seen
         else db.seen ++ (pipelineScoredNew db userId p st serp indeed linkedin ai).map
           (mkSeenRow userId now')) with hcase | hcase
    · refine ⟨r, ?_, rfl, rfl, rfl⟩
      show r ∈ (runPipelineForUser db userId (some p) (some st) serp indeed linkedin ai
          sendOutcome now').db.seen
      simp only [runPipelineForUser]
      rw [hcase]
      exact hmem
    · have := markSent_preserves _ userId
        ((pipelineMatched db userId p st serp indeed linkedin ai).map JobListing.jobId)
        now' r hmem
      rcases this with ⟨r', hr', hprop⟩
      refine ⟨r', ?_, hprop⟩
      show r' ∈ (runPipelineForUser db userId (some p) (some st) serp indeed linkedin ai
          sendOutcome now').db.seen
      simp only [runPipelineForUser]
      rw [hcase]
      exact hr'

def c9job : JobListing := { title := "Backend Engineer", company := "Acme", url := "https://a/1" }

def c9row : SeenRow :=
  { userId := 1, jobId := c9job.jobId, title := "Backend Engineer", company := "Acme",
    url := "https://a/1", location := "", description := "", salary := "", source := "",
    postedDate := "", jobType := "", remote := false, matchScore := 0, matchReason := "",
    firstSeenAt := 5, lastSeenAt := 5, sentAt := none }

def c9serp : String → Source := fun _ _ _ _ => .ok [c9job]

/-- **C9 (counterexample).**  Re-observing an already-seen listing in a
later web-pipeline run (timestamp 99) classifies it as not-new
(`new_jobs_found = 0`) but leaves the stored row byte-for-byte unchanged
with `last_seen_at = 5`: the claimed last-seen update does not happen in
the pipeline's dedup classification. -/
theorem C9_lastSeen_counterexample :
    (runPipelineForUser ⟨[c9row], []⟩ 1 (some {}) (some {}) c9serp cexSrc cexSrc cexAi
        (.ok ()) 99).db.seen = [c9row] ∧
    (runPipelineForUser ⟨[c9row], []⟩ 1 (some {}) (some {}) c9serp cexSrc cexSrc cexAi
        (.ok ()) 99).db.runs =
      [{ userId := 1, jobsFetched := 1, newJobsFound := 0, jobsMatched := 0,
         emailSent := false, errorMessage := some "Sender email not configured" }] ∧
    c9row.lastSeenAt = 5 := by
  refine ⟨by decide, by decide, rfl⟩

theorem C9_lastSeen_witness :
    ((∀ x ∈ (filterNewJobs [⟨c9job.jobId, "Backend Engineer", "Acme", "https://a/1", "", "",
          0, 5, 5, none⟩] [c9job] 42).2, x.jobId ≠ c9job.jobId) ∧
      (c9job ∈ [c9job] →
        ∀ r ∈ (filterNewJobs [⟨c9job.jobId, "Backend Engineer", "Acme", "https://a/1", "", "",
            0, 5, 5, none⟩] [c9job] 42).1, r.jobId = c9job.jobId → r.lastSeenAt = 42)) ∧
    (∀ r ∈ (⟨[c9row], []⟩ : Db).seen,
      ∃ r' ∈ (runPipelineForUser ⟨[c9row], []⟩ 1 (some {}) (some {}) c9serp cexSrc cexSrc
          cexAi (.ok ()) 99).db.seen,
        r'.jobId = r.jobId ∧ r'.userId = r.userId ∧ r'.lastSeenAt = r.lastSeenAt) :=
  ⟨(C9_lastSeen [⟨c9job.jobId, "Backend Engineer", "Acme", "https://a/1", "", "", 0, 5, 5,
      none⟩] [c9job] 42 c9job ⟨[c9row], []⟩ 1 {} {} c9serp cexSrc cexSrc cexAi (.ok ()) 99).1
    (by decide),
   (C9_lastSeen [⟨c9job.jobId, "Backend Engineer", "Acme", "https://a/1", "", "", 0, 5, 5,
      none⟩] [c9job] 42 c9job ⟨[c9row], []⟩ 1 {} {} c9serp cexSrc cexSrc cexAi (.ok ()) 99).2⟩

/-- **C7.**  With the transport configured: on a send failure every newly
observed listing (matched or not) has already been persisted and its row
survives with `sent_at` null, while the error string is attached to the
run record with `email_sent = false`; on a confirmed success, `sent_at` is
set to the run timestamp exactly for this user's rows whose id is among
the matched (deduped) identities. -/
theorem C7_persist_before_notify (db : Db) (userId : Nat) (p : ProfileData)
    (st : UserSettingsRow) (serp : String → Source) (indeed linkedin : Source)
    (ai : AiOracle) (now : Nat) (hconf : transportConfigured st)
    (hnoprior : ∀ r ∈ db.seen, r.sentAt ≠ some now) :
    (∀ e : String,
      (∀ j ∈ pipelineScoredNew db userId p st serp indeed linkedin ai,
        mkSeenRow userId now j ∈
          (runPipelineForUser db userId (some p) (some st) serp indeed linkedin ai
            (.error e) now).db.seen ∧
        (mkSeenRow userId now j).sentAt = none) ∧
      (runPipelineForUser db userId (some p) (some st) serp indeed linkedin ai
          (.error e) now).db.runs =
        db.runs ++
          [{ userId := userId,
             jobsFetched := (pipelineFetched st serp indeed linkedin).length,
             newJobsFound := (pipelineNewJobs db userId st serp indeed linkedin).length,
             jobsMatched := (pipelineMatched db userId p st serp indeed linkedin ai).length,
             emailSent := false, errorMessage := some ("Email error: " ++ e) }]) ∧
    (∀ r ∈ (runPipelineForUser db userId (some p) (some st) serp indeed linkedin ai
        (.ok ()) now).db.seen,
      r.sentAt = some now ↔
        r.userId = userId ∧
        r.jobId ∈ (pipelineMatched db userId p st serp indeed linkedin ai).map
          JobListing.jobId) := by
  obtain ⟨hb1, hb2, hb3⟩ := buildConfig_emailFields st
  have hguard : (buildAppConfigForUser st).email.senderEmail ≠ "" ∧
      (st.resendApiKey ≠ "" ∨ (buildAppConfigForUser st).email.senderPassword ≠ "") ∧
      (buildAppConfigForUser st).email.recipientEmail ≠ "" := by
    rw [hb1, hb2, hb3]; exact hconf
  constructor
  · intro e
    have hspec := (emailPhase_spec (buildAppConfigForUser st) st.resendApiKey userId
      (pipelineFetched st serp indeed linkedin).length
      (pipelineNewJobs db userId st serp indeed linkedin).length
      (pipelineMatched db userId p st serp indeed linkedin ai) (.error e) now
      (if pipelineNewJobs db userId st serp indeed linkedin = [] then db.seen
       else db.seen ++ (pipelineScoredNew db userId p st serp indeed linkedin ai).map
         (mkSeenRow userId now))).1 hguard
    have hsent : (emailPhase (buildAppConfigForUser st) st.resendApiKey userId
        (pipelineFetched st serp indeed linkedin).length
        (pipelineNewJobs db userId st serp indeed linkedin).length
        (pipelineMatched db userId p st serp indeed linkedin ai) (.error e) now
        (if pipelineNewJobs db userId st serp indeed linkedin = [] then db.seen
         else db.seen ++ (pipelineScoredNew db userId p st serp indeed linkedin ai).map
           (mkSeenRow userId now))).2.1 = false := by
      cases h : (emailPhase (buildAppConfigForUser st) st.resendApiKey userId
        (pipelineFetched st serp indeed linkedin).length
        (pipelineNewJobs db userId st serp indeed linkedin).length
        (pipelineMatched db userId p st serp indeed linkedin ai) (.error e) now
        (if pipelineNewJobs db userId st serp indeed linkedin = [] then db.seen
         else db.seen ++ (pipelineScoredNew db userId p st serp indeed linkedin ai).map
           (mkSeenRow userId now))).2.1
      · rfl
      · exact absurd (hspec.2.1.mp h) (by simp)
    constructor
    · intro j hj
      have hne : pipelineNewJobs db userId st serp indeed linkedin ≠ [] := by
        intro h0
        rw [pipelineScoredNew, h0] at hj
        exact absurd hj (List.not_mem_nil _)
      refine ⟨?_, rfl⟩
      show mkSeenRow userId now j ∈ (runPipelineForUser db userId (some p) (some st) serp
        indeed linkedin ai (.error e) now).db.seen
      simp only [runPipelineForUser]
      rw [hspec.2.2.1, if_neg hne]
      exact List.mem_append_right _ (List.mem_map_of_mem _ hj)
    · simp only [runPipelineForUser]
      rw [hsent, hspec.2.2.2]
  · have hspec := (emailPhase_spec (buildAppConfigForUser st) st.resendApiKey userId
      (pipelineFetched st serp indeed linkedin).length
      (pipelineNewJobs db userId st serp indeed linkedin).length
      (pipelineMatched db userId p st serp indeed linkedin ai) (.ok ()) now
      (if pipelineNewJobs db userId st serp indeed linkedin = [] then db.seen
       else db.seen ++ (pipelineScoredNew db userId p st serp indeed linkedin ai).map
         (mkSeenRow userId now))).1 hguard
    intro r hr
    have hr' : r ∈ markSent
        (if pipelineNewJobs db userId st serp indeed linkedin = [] then db.seen
         else db.seen ++ (pipelineScoredNew db userId p st serp indeed linkedin ai).map
           (mkSeenRow userId now)) userId
        ((pipelineMatched db userId p st serp indeed linkedin ai).map JobListing.jobId)
        now := by
      have hseeneq : (runPipelineForUser db userId (some p) (some st) serp indeed linkedin
          ai (.ok ()) now).db.seen = markSent
          (if pipelineNewJobs db userId st serp indeed linkedin = [] then db.seen
           else db.seen ++ (pipelineScoredNew db userId p st serp indeed linkedin ai).map
             (mkSeenRow userId now)) userId
          ((pipelineMatched db userId p st serp indeed linkedin ai).map JobListing.jobId)
          now := by
        simp only [runPipelineForUser]
        rw [hspec.2.2.1]
      rw [hseeneq] at hr
      exact hr
    rcases List.mem_map.mp hr' with ⟨r0, hr0, hr0eq⟩
    have hr0sent : r0.sentAt ≠ some now := by
      intro hbad
      by_cases h0 : pipelineNewJobs db userId st serp indeed linkedin = []
      · rw [if_pos h0] at hr0
        exact hnoprior r0 hr0 hbad
      · rw [if_neg h0] at hr0
        rcases List.mem_append.mp hr0 with hold | hnew
        · exact hnoprior r0 hold hbad
        · rcases List.mem_map.mp hnew with ⟨j0, _, hj0eq⟩
          rw [← hj0eq] at hbad
          exact Option.noConfusion hbad
    constructor
    · intro hsent
      by_cases hc : r0.userId = userId ∧ r0.jobId ∈
          (pipelineMatched db userId p st serp indeed linkedin ai).map JobListing.jobId
      · rw [if_pos hc] at hr0eq
        rw [← hr0eq]
        exact hc
      · rw [if_neg hc] at hr0eq
        rw [← hr0eq] at hsent
        exact absurd hsent hr0sent
    · rintro ⟨hu, hid⟩
      by_cases hc : r0.userId = userId ∧ r0.jobId ∈
          (pipelineMatched db userId p st serp indeed linkedin ai).map JobListing.jobId
      · rw [if_pos hc] at hr0eq
        rw [← hr0eq]
      · rw [if_neg hc] at hr0eq
        rw [← hr0eq] at hu hid
        exact absurd ⟨hu, hid⟩ hc

theorem C7_persist_before_notify_witness :
    (mkSeenRow 1 6 ((pipelineScoredNew ⟨[], []⟩ 1 c5profile c3settings c9serp cexSrc cexSrc
        cexAi).getD 0 c9job) ∈
      (runPipelineForUser ⟨[], []⟩ 1 (some c5profile) (some c3settings) c9serp cexSrc cexSrc
        cexAi (.error "boom") 6).db.seen ∧
     (mkSeenRow 1 6 ((pipelineScoredNew ⟨[], []⟩ 1 c5profile c3settings c9serp cexSrc cexSrc
        cexAi).getD 0 c9job)).sentAt = none) ∧
    (((runPipelineForUser ⟨[], []⟩ 1 (some c5profile) (some c3settings) c9serp cexSrc cexSrc
        cexAi (.ok ()) 6).db.seen.getD 0 c9row).sentAt = some 6 ↔
      ((runPipelineForUser ⟨[], []⟩ 1 (some c5profile) (some c3settings) c9serp cexSrc cexSrc
          cexAi (.ok ()) 6).db.seen.getD 0 c9row).userId = 1 ∧
      ((runPipelineForUser ⟨[], []⟩ 1 (some c5profile) (some c3settings) c9serp cexSrc cexSrc
          cexAi (.ok ()) 6).db.seen.getD 0 c9row).jobId ∈
        (pipelineMatched ⟨[], []⟩ 1 c5profile c3settings c9serp cexSrc cexSrc cexAi).map
          JobListing.jobId) :=
  ⟨(C7_persist_before_notify ⟨[], []⟩ 1 c5profile c3settings c9serp cexSrc cexSrc cexAi 6
      (by refine ⟨by decide, Or.inr (by decide), by decide⟩)
      (fun r hr => absurd hr (List.not_mem_nil r))).1 "boom" |>.1
      ((pipelineScoredNew ⟨[], []⟩ 1 c5profile c3settings c9serp cexSrc cexSrc cexAi).getD
        0 c9job) (by decide),
   (C7_persist_before_notify ⟨[], []⟩ 1 c5profile c3settings c9serp cexSrc cexSrc cexAi 6
      (by refine ⟨by decide, Or.inr (by decide), by decide⟩)
      (fun r hr => absurd hr (List.not_mem_nil r))).2
      ((runPipelineForUser ⟨[], []⟩ 1 (some c5profile) (some c3settings) c9serp cexSrc cexSrc
        cexAi (.ok ()) 6).db.seen.getD 0 c9row) (by decide)⟩

/-! ### Secondary-dedup helper lemmas -/

/-- Recursive form of the secondary dedup loop (`seenKeys` is the
`seen_pairs` set so far). -/
def dedupGo (seenKeys : List (String × String)) : List JobListing → List JobListing
  | [] => []
  | j :: rest =>
      if pairKey j ∈ seenKeys then dedupGo seenKeys rest
      else j :: dedupGo (seenKeys ++ [pairKey j]) rest

theorem secondaryDedup_go : ∀ (l : List JobListing) (ks : List (String × String))
    (out : List JobListing),
    (l.foldl
      (fun (acc : List (String × String) × List JobListing) j =>
        if pairKey j ∈ acc.1 then acc else (acc.1 ++ [pairKey j], acc.2 ++ [j]))
      (ks, out)).2 = out ++ dedupGo ks l := by
  intro l
  induction l with
  | nil => intro ks out; simp [dedupGo]
  | cons j rest ih =>
      intro ks out
      rw [List.foldl_cons]
      by_cases hj : pairKey j ∈ ks
      · rw [if_pos hj, ih]
        simp [dedupGo, hj]
      · rw [if_neg hj, ih]
        simp [dedupGo, hj]

theorem secondaryDedup_eq (l : List JobListing) : secondaryDedup l = dedupGo [] l := by
  unfold secondaryDedup
  rw [secondaryDedup_go]
  rfl

theorem dedupGo_filter_mem (k : String × String) : ∀ (l : List JobListing)
    (ks : List (String × String)), k ∈ ks →
    (dedupGo ks l).filter (fun x => pairKey x = k) = [] := by
  intro l
  induction l with
  | nil => intros; rfl
  | cons j rest ih =>
      intro ks hk
      simp only [dedupGo]
      by_cases hj : pairKey j ∈ ks
      · rw [if_pos hj]
        exact ih ks hk
      · rw [if_neg hj]
        have hjk : ¬(pairKey j = k) := fun h => hj (h ▸ hk)
        rw [List.filter_cons, if_neg (by simpa using hjk)]
        exact ih (ks ++ [pairKey j]) (List.mem_append_left _ hk)

theorem dedupGo_filter_not_mem (k : String × String) : ∀ (l : List JobListing)
    (ks : List (String × String)), k ∉ ks →
    (dedupGo ks l).filter (fun x => pairKey x = k) =
      (match l.find? (fun x => pairKey x = k) with
       | some j => [j]
       | none => []) := by
  intro l
  induction l with
  | nil => intros; rfl
  | cons j rest ih =>
      intro ks hk
      simp only [dedupGo]
      by_cases hj : pairKey j ∈ ks
      · have hjk : ¬(pairKey j = k) := fun h => hk (h ▸ hj)
        rw [if_pos hj, ih ks hk, List.find?_cons_of_neg _ (by simpa using hjk)]
      · rw [if_neg hj]
        by_cases hjk : pairKey j = k
        · rw [List.filter_cons, if_pos (by simpa using hjk),
              List.find?_cons_of_pos _ (by simpa using hjk),
              dedupGo_filter_mem k rest (ks ++ [pairKey j])
                (hjk ▸ List.mem_append_right _ (List.mem_singleton_self _))]
        · rw [List.filter_cons, if_neg (by simpa using hjk),
              List.find?_cons_of_neg _ (by simpa using hjk)]
          exact ih (ks ++ [pairKey j])
            (fun h => by
              rcases List.mem_append.mp h with h | h
              · exact hk h
              · exact hjk (List.mem_singleton.mp h).symm)

theorem find?_isSome_of_mem_map {l : List JobListing} {k : String × String}
    (hk : k ∈ l.map pairKey) :
    ∃ j, l.find? (fun x => pairKey x = k) = some j := by
  induction l with
  | nil => simp at hk
  | cons a rest ih =>
      by_cases ha : pairKey a = k
      · exact ⟨a, List.find?_cons_of_pos _ (by simpa using ha)⟩
      · have hk' : k ∈ rest.map pairKey := by
          rcases List.mem_map.mp hk with ⟨x, hx, hxk⟩
          rcases List.mem_cons.mp hx with rfl | hx'
          · exact absurd hxk ha
          · exact List.mem_map.mpr ⟨x, hx', hxk⟩
        rcases ih hk' with ⟨j, hj⟩
        exact ⟨j, by rw [List.find?_cons_of_neg _ (by simpa using ha)]; exact hj⟩

/-- In a score-descending list the first element found by a predicate has
the maximal score among the elements satisfying it. -/
theorem find?_max_of_sorted (p : JobListing → Bool) :
    ∀ (l : List JobListing) (j : JobListing),
      l.Pairwise (fun a b => b.matchScore ≤ a.matchScore) →
      l.find? p = some j →
      ∀ x ∈ l, p x = true → x.matchScore ≤ j.matchScore := by
  intro l
  induction l with
  | nil => intro j _ hf; simp [List.find?] at hf
  | cons a rest ih =>
      intro j hs hf x hx hpx
      cases hpa : p a
      · rw [List.find?_cons_of_neg _ (by simp [hpa])] at hf
        rcases List.mem_cons.mp hx with rfl | hx'
        · rw [hpa] at hpx
          exact absurd hpx (by simp)
        · exact ih j (List.Pairwise.of_cons hs) hf x hx' hpx
      · rw [List.find?_cons_of_pos _ hpa] at hf
        injection hf with hf
        subst hf
        rcases List.mem_cons.mp hx with rfl | hx'
        · exact le_refl _
        · exact (List.pairwise_cons.mp hs).1 x hx'

/-- If `j` is the first `p`-element and `q` implies `p`, then `j` heads the
`q`-filtered list. -/
theorem head_filter_of_find? {p q : JobListing → Bool} :
    ∀ (l : List JobListing) (j : JobListing),
      l.find? p = some j → q j = true → (∀ x, q x = true → p x = true) →
      (l.filter q).head? = some j := by
  intro l
  induction l with
  | nil => intro j hf; simp [List.find?] at hf
  | cons a rest ih =>
      intro j hf hqj himp
      cases hpa : p a
      · rw [List.find?_cons_of_neg _ (by simp [hpa])] at hf
        have hqa : q a = false := by
          cases hqa : q a
          · rfl
          · rw [himp a hqa] at hpa
            exact absurd hpa (by simp)
        rw [List.filter_cons, if_neg (by simp [hqa])]
        exact ih j hf hqj himp
      · rw [List.find?_cons_of_pos _ hpa] at hf
        injection hf with hf
        subst hf
        rw [List.filter_cons, if_pos (by simp [hqj])]
        rfl

/-- Sortedness of `score_and_filter_jobs` output (helper shared by the
dedup analysis). -/
theorem scoreAndFilterJobs_sorted (profile : ProfileData) (jobs : List JobListing)
    (config : AppConfig) (ai : AiOracle) :
    (scoreAndFilterJobs profile jobs config ai).Pairwise
      (fun a b => b.matchScore ≤ a.matchScore) := by
  letI : IsTotal JobListing (fun x y => y.matchScore ≤ x.matchScore) :=
    ⟨fun a b => le_total b.matchScore a.matchScore⟩
  letI : IsTrans JobListing (fun x y => y.matchScore ≤ x.matchScore) :=
    ⟨fun _ _ _ h1 h2 => le_trans h2 h1⟩
  simpa only [scoreAndFilterJobs] using
    List.sorted_insertionSort (fun x y : JobListing => y.matchScore ≤ x.matchScore) _

/-- Stability of `score_and_filter_jobs` (helper shared by the dedup
analysis): each equal-score slice keeps the fetch order. -/
theorem scoreAndFilterJobs_stable (profile : ProfileData) (jobs : List JobListing)
    (config : AppConfig) (ai : AiOracle) (s : ℚ) :
    (scoreAndFilterJobs profile jobs config ai).filter (fun j => j.matchScore = s) =
      ((jobs.map (assignScore profile config ai)).filter
          (fun j => config.matching.scoreThreshold ≤ j.matchScore)).filter
        (fun j => j.matchScore = s) := by
  simp only [scoreAndFilterJobs]
  exact filter_insertionSort _ _
    (fun a b ha hb => by
      have ha' := of_decide_eq_true ha
      have hb' := of_decide_eq_true hb
      simp only [ha', hb']
      exact le_refl _) _

/-- The score-sorted matched set of a run, before the secondary dedup. -/
def pipelinePreDedup (db : Db) (userId : Nat) (p : ProfileData) (st : UserSettingsRow)
    (serp : String → Source) (indeed linkedin : Source) (ai : AiOracle) : List JobListing :=
  scoreAndFilterJobs (augmentProfile p (buildAppConfigForUser st))
    (pipelineNewJobs db userId st serp indeed linkedin) (buildAppConfigForUser st) ai

/-- Regardless of transport configuration, a row carrying this run's
`sent_at` timestamp must have been marked by this run, so its id is among
the deduped matched identities. -/
theorem onlyMatched_marked (db : Db) (userId : Nat) (p : ProfileData)
    (st : UserSettingsRow) (serp : String → Source) (indeed linkedin : Source)
    (ai : AiOracle) (now : Nat) (hnoprior : ∀ r0 ∈ db.seen, r0.sentAt ≠ some now) :
    ∀ r ∈ (runPipelineForUser db userId (some p) (some st) serp indeed linkedin ai
        (.ok ()) now).db.seen,
      r.sentAt = some now →
      r.jobId ∈ (pipelineMatched db userId p st serp indeed linkedin ai).map
        JobListing.jobId := by
  intro r hr hsent
  have hnosrc : ∀ r0, r0 ∈ (if pipelineNewJobs db userId st serp indeed linkedin = []
      then db.seen
      else db.seen ++ (pipelineScoredNew db userId p st serp indeed linkedin ai).map
        (mkSeenRow userId now)) → r0.sentAt ≠ some now := by
    intro r0 hr0 hbad
    by_cases h0 : pipelineNewJobs db userId st serp indeed linkedin = []
    · rw [if_pos h0] at hr0
      exact hnoprior r0 hr0 hbad
    · rw [if_neg h0] at hr0
      rcases List.mem_append.mp hr0 with hold | hnew
      · exact hnoprior r0 hold hbad
      · rcases List.mem_map.mp hnew with ⟨j0, _, hj0eq⟩
        rw [← hj0eq] at hbad
        exact Option.noConfusion hbad
  rcases emailPhase_seen_cases (buildAppConfigForUser st) st.resendApiKey userId
      (pipelineFetched st serp indeed linkedin).length
      (pipelineNewJobs db userId st serp indeed linkedin).length
      (pipelineMatched db userId p st serp indeed linkedin ai) (.ok ()) now
      (if pipelineNewJobs db userId st serp indeed linkedin = [] then db.seen
       else db.seen ++ (pipelineScoredNew db userId p st serp indeed linkedin ai).map
         (mkSeenRow userId now)) with hcase | hcase
  · have hrmem : r ∈ (if pipelineNewJobs db userId st serp indeed linkedin = []
        then db.seen
        else db.seen ++ (pipelineScoredNew db userId p st serp indeed linkedin ai).map
          (mkSeenRow userId now)) := by
      have : (runPipelineForUser db userId (some p) (some st) serp indeed linkedin ai
          (.ok ()) now).db.seen = _ := hcase
      rw [show (runPipelineForUser db userId (some p) (some st) serp indeed linkedin ai
          (.ok ()) now).db.seen = (emailPhase (buildAppConfigForUser st) st.resendApiKey
            userId (pipelineFetched st serp indeed linkedin).length
            (pipelineNewJobs db userId st serp indeed linkedin).length
            (pipelineMatched db userId p st serp indeed linkedin ai) (.ok ()) now
            (if pipelineNewJobs db userId st serp indeed linkedin = [] then db.seen
             else db.seen ++ (pipelineScoredNew db userId p st serp indeed linkedin ai).map
               (mkSeenRow userId now))).2.2.2 from rfl, hcase] at hr
      exact hr
    exact absurd hsent (hnosrc r hrmem)
  · rw [show (runPipelineForUser db userId (some p) (some st) serp indeed linkedin ai
        (.ok ()) now).db.seen = (emailPhase (buildAppConfigForUser st) st.resendApiKey
          userId (pipelineFetched st serp indeed linkedin).length
          (pipelineNewJobs db userId st serp indeed linkedin).length
          (pipelineMatched db userId p st serp indeed linkedin ai) (.ok ()) now
          (if pipelineNewJobs db userId st serp indeed linkedin = [] then db.seen
           else db.seen ++ (pipelineScoredNew db userId p st serp indeed linkedin ai).map
             (mkSeenRow userId now))).2.2.2 from rfl, hcase] at hr
    rcases List.mem_map.mp hr with ⟨r0, hr0, hr0eq⟩
    by_cases hc : r0.userId = userId ∧ r0.jobId ∈
        (pipelineMatched db userId p st serp indeed linkedin ai).map JobListing.jobId
    · rw [if_pos hc] at hr0eq
      rw [← hr0eq]
      exact hc.2
    · rw [if_neg hc] at hr0eq
      rw [← hr0eq] at hsent
      exact absurd hsent (hnosrc r0 hr0)

/-- **C10.**  For every normalized `(title, company)` pair occurring in the
score-sorted matched set, exactly one listing survives the secondary dedup
pass: the first occurrence in the sorted list, which carries the maximal
score for that pair and — by stability of the sort — is the earliest in
fetch order among its equal-score ties; and only listings surviving the
pass can have their identities marked notified by the run. -/
theorem C10_secondary_dedup_survivor (db : Db) (userId : Nat) (p : ProfileData)
    (st : UserSettingsRow) (serp : String → Source) (indeed linkedin : Source)
    (ai : AiOracle) (k : String × String)
    (hk : k ∈ (pipelinePreDedup db userId p st serp indeed linkedin ai).map pairKey) :
    ∃ jw,
      (pipelinePreDedup db userId p st serp indeed linkedin ai).find?
        (fun x => pairKey x = k) = some jw ∧
      (secondaryDedup (pipelinePreDedup db userId p st serp indeed linkedin ai)).filter
        (fun x => pairKey x = k) = [jw] ∧
      (∀ x ∈ pipelinePreDedup db userId p st serp indeed linkedin ai,
        pairKey x = k → x.matchScore ≤ jw.matchScore) ∧
      ((pipelinePreDedup db userId p st serp indeed linkedin ai).filter
        (fun x => x.matchScore = jw.matchScore ∧ pairKey x = k)).head? = some jw ∧
      (pipelinePreDedup db userId p st serp indeed linkedin ai).filter
          (fun x => x.matchScore = jw.matchScore) =
        (((pipelineNewJobs db userId st serp indeed linkedin).map
            (assignScore (augmentProfile p (buildAppConfigForUser st))
              (buildAppConfigForUser st) ai)).filter
          (fun x => (buildAppConfigForUser st).matching.scoreThreshold ≤ x.matchScore)).filter
          (fun x => x.matchScore = jw.matchScore) ∧
      ∀ now : Nat, (∀ r0 ∈ db.seen, r0.sentAt ≠ some now) →
        ∀ r ∈ (runPipelineForUser db userId (some p) (some st) serp indeed linkedin ai
            (.ok ()) now).db.seen,
          r.sentAt = some now →
          r.jobId ∈ (pipelineMatched db userId p st serp indeed linkedin ai).map
            JobListing.jobId := by
  rcases find?_isSome_of_mem_map hk with ⟨jw, hfind⟩
  have hjwk : pairKey jw = k := by
    have h1 := List.find?_some hfind
    simpa using h1
  refine ⟨jw, hfind, ?_, ?_, ?_, ?_, ?_⟩
  · rw [secondaryDedup_eq,
        dedupGo_filter_not_mem k (pipelinePreDedup db userId p st serp indeed linkedin ai)
          [] (List.not_mem_nil k), hfind]
  · intro x hx hxk
    exact find?_max_of_sorted _ _ jw
      (scoreAndFilterJobs_sorted (augmentProfile p (buildAppConfigForUser st))
        (pipelineNewJobs db userId st serp indeed linkedin) (buildAppConfigForUser st) ai)
      hfind x hx (by simpa using hxk)
  · exact head_filter_of_find? _ jw hfind (by simp [hjwk])
      (fun x hx => by
        have := of_decide_eq_true hx
        simpa using this.2)
  · exact scoreAndFilterJobs_stable (augmentProfile p (buildAppConfigForUser st))
      (pipelineNewJobs db userId st serp indeed linkedin) (buildAppConfigForUser st) ai
      jw.matchScore
  · intro now hnoprior
    exact onlyMatched_marked db userId p st serp indeed linkedin ai now hnoprior

def c10job2 : JobListing := { title := "Engineer", company := "A", url := "u2b" }

def c10serp : String → Source := fun _ _ _ _ => .ok [c5job1, c10job2]

theorem C10_secondary_dedup_survivor_witness :
    ∃ jw,
      (pipelinePreDedup ⟨[], []⟩ 1 c5profile c3settings c10serp cexSrc cexSrc cexAi).find?
        (fun x => pairKey x = ("engineer", "a")) = some jw ∧
      (secondaryDedup (pipelinePreDedup ⟨[], []⟩ 1 c5profile c3settings c10serp cexSrc cexSrc
        cexAi)).filter (fun x => pairKey x = ("engineer", "a")) = [jw] ∧
      (∀ x ∈ pipelinePreDedup ⟨[], []⟩ 1 c5profile c3settings c10serp cexSrc cexSrc cexAi,
        pairKey x = ("engineer", "a") → x.matchScore ≤ jw.matchScore) ∧
      ((pipelinePreDedup ⟨[], []⟩ 1 c5profile c3settings c10serp cexSrc cexSrc cexAi).filter
        (fun x => x.matchScore = jw.matchScore ∧ pairKey x = ("engineer", "a"))).head? =
          some jw ∧
      (pipelinePreDedup ⟨[], []⟩ 1 c5profile c3settings c10serp cexSrc cexSrc cexAi).filter
          (fun x => x.matchScore = jw.matchScore) =
        (((pipelineNewJobs ⟨[], []⟩ 1 c3settings c10serp cexSrc cexSrc).map
            (assignScore (augmentProfile c5profile (buildAppConfigForUser c3settings))
              (buildAppConfigForUser c3settings) cexAi)).filter
          (fun x => (buildAppConfigForUser c3settings).matching.scoreThreshold ≤
            x.matchScore)).filter (fun x => x.matchScore = jw.matchScore) ∧
      ∀ now : Nat, (∀ r0 ∈ (⟨[], []⟩ : Db).seen, r0.sentAt ≠ some now) →
        ∀ r ∈ (runPipelineForUser ⟨[], []⟩ 1 (some c5profile) (some c3settings) c10serp
            cexSrc cexSrc cexAi (.ok ()) now).db.seen,
          r.sentAt = some now →
          r.jobId ∈ (pipelineMatched ⟨[], []⟩ 1 c5profile c3settings c10serp cexSrc cexSrc
            cexAi).map JobListing.jobId :=
  C10_secondary_dedup_survivor ⟨[], []⟩ 1 c5profile c3settings c10serp cexSrc cexSrc cexAi
    ("engineer", "a") (by decide)

end JobAgent
